import Mathlib

/-!
# UPS Voltronic sensor (`espurna/sensors/UPSVoltronicSensor.h`)

A shallow embedding of the class `UPSVoltronicSensor` and of the few library
calls it makes, followed by theorems about it.

* An Arduino `String` is a list of characters.
* The sensor object is the record `Sensor`; a member function is a function on
  that record.  A member function that talks to the serial port also returns
  the list of calls it made on the port, in program order, and returns `none`
  where the source dereferences a null `_serial`.
* A `double` slot value is a `Double`: a finite number, an infinity or a NaN.
  Finite numbers are rational: `toFloat` yields the exact value of the text it
  reads.  Rounding to binary floating point, overflow and underflow are
  outside the embedding.
-/

namespace UPSVoltronicSensor

/-! ## Library calls used by the source -/

/-- An Arduino `String`. -/
abbrev Str := List Char

/-- Arduino `String::charAt(loc)`: the character at `loc`, NUL when out of range. -/
def charAt (s : Str) (loc : Nat) : Char :=
  if loc ≥ s.length then Char.ofNat 0 else s.getD loc (Char.ofNat 0)

/-- Arduino `String::substring(left, right)`: swaps the bounds when
`left > right`, is empty when `left` is past the end, clamps `right` to the
length, and copies the characters `left .. right - 1`. -/
def substring (s : Str) (left right : Nat) : Str :=
  let l := if left > right then right else left
  let r := if left > right then left else right
  if l ≥ s.length then []
  else
    let r := if r > s.length then s.length else r
    (s.drop l).take (r - l)

/-- Arduino `String::substring(beginIndex)`, which is `substring(beginIndex, length())`. -/
def substringFrom (s : Str) (beginIndex : Nat) : Str :=
  substring s beginIndex s.length

/-- C `isspace` in the "C" locale. -/
def isspace (c : Char) : Bool :=
  c.toNat = 32 || (9 ≤ c.toNat && c.toNat ≤ 13)

/-- C `isdigit`. -/
def isdigit (c : Char) : Bool :=
  48 ≤ c.toNat && c.toNat ≤ 57

/-- The number written by a run of decimal digits. -/
def digitsValue (ds : List Char) : Nat :=
  ds.foldl (fun n c => 10 * n + (c.toNat - 48)) 0

/-- An optional sign in front of a number: whether it is `-`, and the rest. -/
def readSign : List Char → Bool × List Char
  | [] => (false, [])
  | c :: t => if c = '-' then (true, t) else if c = '+' then (false, t) else (false, c :: t)

/-- The exponent part of a decimal floating constant (`e` or `E`, an optional
sign, at least one digit); 0 when there is none. -/
def readExponent : List Char → Int
  | [] => 0
  | c :: t =>
    if c = 'e' ∨ c = 'E' then
      let ds := (readSign t).2.takeWhile isdigit
      if ds = [] then 0
      else if (readSign t).1 then -(digitsValue ds : Int) else (digitsValue ds : Int)
    else 0

/-- C `strtod` on the decimal forms: skip white space, read an optional sign,
digits with an optional point (at least one digit in all) and an optional
exponent.  The result is `(negative, mantissa, decimal exponent)`, or `none`
when the text has no such form. -/
def strtodDecimal (s : List Char) : Option (Bool × Nat × Int) :=
  let s1 := readSign (s.dropWhile isspace)
  let ip := s1.2.takeWhile isdigit
  let s3 := s1.2.dropWhile isdigit
  let fp := match s3 with
    | [] => []
    | c :: t => if c = '.' then t.takeWhile isdigit else []
  let s4 := match s3 with
    | [] => []
    | c :: t => if c = '.' then t.dropWhile isdigit else c :: t
  if ip = [] ∧ fp = [] then none
  else some (s1.1, digitsValue (ip ++ fp), readExponent s4 - (fp.length : Int))

/-- C `isxdigit`. -/
def isxdigit (c : Char) : Bool :=
  isdigit c || (97 ≤ c.toNat && c.toNat ≤ 102) || (65 ≤ c.toNat && c.toNat ≤ 70)

/-- The value of a hexadecimal digit. -/
def hexDigitValue (c : Char) : Nat :=
  if isdigit c then c.toNat - 48
  else if 97 ≤ c.toNat then c.toNat - 87
  else c.toNat - 55

/-- The number written by a run of hexadecimal digits. -/
def hexValue (ds : List Char) : Nat :=
  ds.foldl (fun n c => 16 * n + hexDigitValue c) 0

/-- The binary exponent part of a hexadecimal floating constant (`p` or `P`,
an optional sign, at least one decimal digit); 0 when there is none. -/
def readBinaryExponent : List Char → Int
  | [] => 0
  | c :: t =>
    if c = 'p' ∨ c = 'P' then
      let ds := (readSign t).2.takeWhile isdigit
      if ds = [] then 0
      else if (readSign t).1 then -(digitsValue ds : Int) else (digitsValue ds : Int)
    else 0

/-- C `strtod` on the hexadecimal forms: skip white space, read an optional
sign, `0x` or `0X`, hexadecimal digits with an optional point (at least one
digit in all) and an optional binary exponent.  The result is
`(negative, mantissa, binary exponent)`, or `none` when the text has no such
form. -/
def strtodHex (s : List Char) : Option (Bool × Nat × Int) :=
  let s1 := readSign (s.dropWhile isspace)
  match s1.2 with
  | c0 :: c1 :: t =>
    if c0 = '0' ∧ (c1 = 'x' ∨ c1 = 'X') then
      let ip := t.takeWhile isxdigit
      let s3 := t.dropWhile isxdigit
      let fp := match s3 with
        | [] => []
        | c :: u => if c = '.' then u.takeWhile isxdigit else []
      let s4 := match s3 with
        | [] => []
        | c :: u => if c = '.' then u.dropWhile isxdigit else c :: u
      if ip = [] ∧ fp = [] then none
      else some (s1.1, hexValue (ip ++ fp), readBinaryExponent s4 - 4 * (fp.length : Int))
    else none
  | _ => none

/-- A C `double`: a finite number, an infinity with its sign, or a NaN. -/
inductive Double
  | finite (q : ℚ)
  | infinity (negative : Bool)
  | nan
  deriving DecidableEq

/-- C `tolower` in the "C" locale. -/
def tolower (c : Char) : Char :=
  if 65 ≤ c.toNat ∧ c.toNat ≤ 90 then Char.ofNat (c.toNat + 32) else c

/-- Whether `s` starts with the lower-case `word`, the case of letters in `s`
ignored. -/
def startsWithNoCase (word s : List Char) : Bool :=
  (s.take word.length).map tolower == word

/-- C `strtod` on the forms `INF`, `INFINITY`, `NAN` and `NAN(...)`, in either
case of the letters: skip white space, read an optional sign, then one of the
words.  The result is the infinity or NaN read, or `none` when the text has
no such form. -/
def strtodSpecial (s : List Char) : Option Double :=
  let s1 := readSign (s.dropWhile isspace)
  if startsWithNoCase ['i', 'n', 'f'] s1.2 then some (.infinity s1.1)
  else if startsWithNoCase ['n', 'a', 'n'] s1.2 then some .nan
  else none

/-- C `strtod`: the value of the longest initial part of `s` that has the form
of a hexadecimal or decimal floating constant, an infinity or a NaN; `none`
when no conversion can be performed. -/
def strtod (s : List Char) : Option Double :=
  match strtodHex s with
  | some (neg, m, e) => some (.finite ((if neg then -1 else 1) * (m : ℚ) * (2 : ℚ) ^ e))
  | none =>
    match strtodDecimal s with
    | some (neg, m, e) => some (.finite ((if neg then -1 else 1) * (m : ℚ) * (10 : ℚ) ^ e))
    | none => strtodSpecial s

/-- C `atof`: the value `strtod` reads, 0 when no conversion can be performed. -/
def atof (s : List Char) : Double :=
  match strtod s with
  | none => .finite 0
  | some v => v

/-- Arduino `String::toFloat()`, which is `atof` on the string's buffer. -/
def toFloat (s : Str) : Double := atof s

/-- C `snprintf(buffer, size, ...)` followed by `String(buffer)`: at most
`size - 1` characters of the formatted text are stored. -/
def snprintf (size : Nat) (text : Str) : Str := text.take (size - 1)

/-- The `%u` conversion of `printf`. -/
def fmtU (n : Nat) : Str := (Nat.repr n).toList

/-! ## Declarations the source takes from other headers -/

/-- Modelled from the spec: the error codes of the sensor base class, whose
header is not among the sources.  The spec names two outcomes of a read
attempt, OK and TIMEOUT; `OTHER` stands for every other code the base class's
`_error` field can hold. -/
inductive SensorError
  | SENSOR_ERROR_OK
  | SENSOR_ERROR_TIMEOUT
  | OTHER (code : Nat)
  deriving DecidableEq

/-- Modelled from the spec: the measurement kinds of the slot catalog
(voltage, load percentage, frequency, temperature, digital flag), declared in
a header that is not among the sources. -/
inductive Magnitude
  | MAGNITUDE_VOLTAGE
  | MAGNITUDE_LOAD
  | MAGNITUDE_FREQUENCY
  | MAGNITUDE_TEMPERATURE
  | MAGNITUDE_DIGITAL
  deriving DecidableEq

/-- The object a `Stream *` points to: a `SoftwareSerial` built by the
sensor with its constructor arguments, or a `HardwareSerial` supplied from
outside. -/
inductive Stream
  | SoftwareSerial (receivePin transmitPin : Nat) (inverse_logic : Bool) (buffSize : Nat)
  | HardwareSerial (port : Nat)
  deriving DecidableEq

/-- A call the sensor makes on the transport layer. -/
inductive TransportOp
  | delete (p : Stream)
  | new (p : Stream)
  | enableIntTx (p : Stream) (enable : Bool)
  | softBegin (p : Stream) (baud : Nat)
  | hardBegin (p : Stream) (baud : Nat)
  | setTimeout (p : Stream) (timeout : Nat)
  | print (p : Stream) (text : Str)
  | flush (p : Stream)
  | readStringUntil (p : Stream) (terminator : Char)
  deriving DecidableEq

/-! ## The class -/

/-- The constant `#define VOLTRONIC_BAUD_RATE 2400`. -/
def VOLTRONIC_BAUD_RATE : Nat := 2400

/-- The constant `#define VOLTRONIC_SLOT_MAX 15`. -/
def VOLTRONIC_SLOT_MAX : Nat := 15

/-- The table `slot_spec`: name and type of each slot. -/
def slot_spec : Fin 15 → String × Magnitude
  | 0 => ("Input voltage", .MAGNITUDE_VOLTAGE)
  | 1 => ("Input fault voltage", .MAGNITUDE_VOLTAGE)
  | 2 => ("Output voltage", .MAGNITUDE_VOLTAGE)
  | 3 => ("Output load level", .MAGNITUDE_LOAD)
  | 4 => ("Output frequency", .MAGNITUDE_FREQUENCY)
  | 5 => ("Battery voltage", .MAGNITUDE_VOLTAGE)
  | 6 => ("Internal Temperature", .MAGNITUDE_TEMPERATURE)
  | 7 => ("Utility fail", .MAGNITUDE_DIGITAL)
  | 8 => ("Battery Low", .MAGNITUDE_DIGITAL)
  | 9 => ("Boost or buck mode", .MAGNITUDE_DIGITAL)
  | 10 => ("UPS Fault", .MAGNITUDE_DIGITAL)
  | 11 => ("Type line-interactive or on-line", .MAGNITUDE_DIGITAL)
  | 12 => ("Self-test in progress", .MAGNITUDE_DIGITAL)
  | 13 => ("Shutdown active status", .MAGNITUDE_DIGITAL)
  | 14 => ("Beeper is active", .MAGNITUDE_DIGITAL)

/-- The data members of `UPSVoltronicSensor`.  `_serial` is `none` for a null
pointer.  The members `_error`, `_dirty`, `_ready` and `_count` are inherited
from the sensor base class. -/
structure Sensor where
  _serial : Option Stream
  _soft : Bool
  _pin_rx : Nat
  _pin_tx : Nat
  _slot_values : Fin 15 → Double
  _error : SensorError
  _dirty : Bool
  _ready : Bool
  _count : Nat

/-- Modelled from the spec: a newly constructed sensor.  The source gives
`_serial = NULL`, `_soft = true`, `_slot_values = {0}` and `_count = 15`, and
leaves `_pin_rx` and `_pin_tx` without initial value (they are the arguments
here).  The initial `_dirty`, `_ready` and `_error` come from the base class,
whose header is not among the sources: the spec's initial state is
Unconfigured/Dirty and not Ready, with no error. -/
def fresh (pin_rx pin_tx : Nat) : Sensor :=
  { _serial := none
    _soft := true
    _pin_rx := pin_rx
    _pin_tx := pin_tx
    _slot_values := fun _ => .finite 0
    _error := .SENSOR_ERROR_OK
    _dirty := true
    _ready := false
    _count := VOLTRONIC_SLOT_MAX }

/-- The destructor `~UPSVoltronicSensor()`: the calls it makes. -/
def destroy (s : Sensor) : List TransportOp :=
  match s._serial with
  | some p => [.delete p]
  | none => []

/-- The member `void setRX(unsigned char pin_rx)`. -/
def setRX (s : Sensor) (pin_rx : Fin 256) : Sensor :=
  if s._pin_rx = pin_rx.val then s
  else { s with _pin_rx := pin_rx.val, _dirty := true }

/-- The member `void setTX(unsigned char pin_tx)`. -/
def setTX (s : Sensor) (pin_tx : Fin 256) : Sensor :=
  if s._pin_tx = pin_tx.val then s
  else { s with _pin_tx := pin_tx.val, _dirty := true }

/-- The member `void setSerial(HardwareSerial * serial)`.  The argument is the
hardware port pointed to, `none` for a null pointer. -/
def setSerial (s : Sensor) (serial : Option Nat) : Sensor :=
  { s with _soft := false, _serial := serial.map Stream.HardwareSerial, _dirty := true }

/-- The member `unsigned char getRX()`: the stored pin converted to `unsigned char`. -/
def getRX (s : Sensor) : Nat := s._pin_rx % 256

/-- The member `unsigned char getTX()`: the stored pin converted to `unsigned char`. -/
def getTX (s : Sensor) : Nat := s._pin_tx % 256

/-- The member `void begin()`: the new state and the calls made on the transport, or
`none` where `_serial` is dereferenced while null. -/
def begin (s : Sensor) : Option (Sensor × List TransportOp) :=
  if !s._dirty then some (s, [])
  else
    let r1 : Sensor × List TransportOp :=
      if s._soft then
        let ops0 : List TransportOp :=
          match s._serial with
          | some old => [.delete old]
          | none => []
        let p := Stream.SoftwareSerial s._pin_rx s._pin_tx false 64
        ({ s with _serial := some p }, ops0 ++ [.new p, .enableIntTx p false])
      else (s, [])
    match r1.1._serial with
    | none => none
    | some p =>
      let ops2 : List TransportOp :=
        [ if r1.1._soft then .softBegin p VOLTRONIC_BAUD_RATE else .hardBegin p VOLTRONIC_BAUD_RATE,
          .setTimeout p 50 ]
      some ({ r1.1 with _ready := true, _dirty := false }, r1.2 ++ ops2)

/-- The member `String description()`. -/
def description (s : Sensor) : Str :=
  if s._soft then
    snprintf 38 ("UPS Voltronic @ SwSerial(".toList ++ fmtU s._pin_rx ++ ",".toList
      ++ fmtU s._pin_tx ++ ")".toList)
  else
    "UPS Voltronic @ HwSerial".toList.take 38

/-- The member `String slot(unsigned char index)`, for an index within the table. -/
def slot (s : Sensor) (index : Fin 15) : Str :=
  if s._soft then
    snprintf 67 ((slot_spec index).1.toList ++ " @ UPS Voltronic @ SwSerial(".toList
      ++ fmtU s._pin_rx ++ ",".toList ++ fmtU s._pin_tx ++ ")".toList)
  else
    snprintf 67 ((slot_spec index).1.toList ++ " @ UPS Voltronic @ HwSerial".toList)

/-- The member `String address(unsigned char index)`. -/
def address (s : Sensor) (_index : Nat) : Str :=
  snprintf 6 (fmtU s._pin_rx ++ ":".toList ++ fmtU s._pin_tx)

/-- The member `unsigned char type(unsigned char index)`, for an index within the table. -/
def type (_s : Sensor) (index : Fin 15) : Magnitude := (slot_spec index).2

/-- The member `double value(unsigned char index)`, for an index within the array. -/
def value (s : Sensor) (index : Fin 15) : Double := s._slot_values index

/-- The member `String _readResponse(size_t count)`.  Here `reply` is what
`_serial->readStringUntil('\r')` returns on this call. -/
def _readResponse (s : Sensor) (count : Nat) (reply : Str) :
    Option (Sensor × Str × List TransportOp) :=
  match s._serial with
  | none => none
  | some p =>
    let response := reply
    let s1 : Sensor :=
      if response.length < count || charAt response 0 != '(' then
        { s with _error := .SENSOR_ERROR_TIMEOUT }
      else
        { s with _error := .SENSOR_ERROR_OK }
    some (s1, response, [.readStringUntil p (Char.ofNat 13)])

/-- The assignment `_slot_values[i] = v`. -/
def setSlot (s : Sensor) (i : Fin 15) (v : Double) : Sensor :=
  { s with _slot_values := Function.update s._slot_values i v }

/-- The member `void _parseQueryStatusResponse(String response)`. -/
def _parseQueryStatusResponse (s : Sensor) (response : Str) : Sensor :=
  let s := setSlot s 0 (toFloat (substring response 1 6))
  let s := setSlot s 1 (toFloat (substring response 7 12))
  let s := setSlot s 2 (toFloat (substring response 13 18))
  let s := setSlot s 3 (toFloat (substring response 19 22))
  let s := setSlot s 4 (toFloat (substring response 23 27))
  let s := setSlot s 5 (toFloat (substring response 28 32))
  let s := setSlot s 6 (toFloat (substring response 34 37))
  let s := setSlot s 7 (toFloat (substring response 38 39))
  let s := setSlot s 8 (toFloat (substring response 39 40))
  let s := setSlot s 9 (toFloat (substring response 40 41))
  let s := setSlot s 10 (toFloat (substring response 41 42))
  let s := setSlot s 11 (toFloat (substring response 42 43))
  let s := setSlot s 12 (toFloat (substring response 43 44))
  let s := setSlot s 13 (toFloat (substring response 44 45))
  setSlot s 14 (toFloat (substringFrom response 45))

/-- The member `void _requestStatus()`.  Here `reply` is what the transport hands back to the
one `readStringUntil` of this call. -/
def _requestStatus (s : Sensor) (reply : Str) : Option (Sensor × List TransportOp) :=
  match s._serial with
  | none => none
  | some p =>
    match _readResponse s 46 reply with
    | none => none
    | some (s1, response, ops) =>
      let sent : List TransportOp := [.print p "QS\r".toList, .flush p]
      if s1._error != .SENSOR_ERROR_OK then some (s1, sent ++ ops)
      else some (_parseQueryStatusResponse s1 response, sent ++ ops)

/-- The member `void pre()`. -/
def pre (s : Sensor) (reply : Str) : Option (Sensor × List TransportOp) :=
  _requestStatus s reply

/-! ## Definitions that follow the wording of the spec -/

/-- The spec's validation rule: at least 46 characters, the first one `(`. -/
def validReply (reply : Str) : Prop := 46 ≤ reply.length ∧ reply.head? = some '('

instance (reply : Str) : Decidable (validReply reply) := by
  unfold validReply; infer_instance

/-- The spec's table of character ranges: the first index and, except for
the last slot, the index one past the end. -/
def slotRange : Fin 15 → Nat × Option Nat
  | 0 => (1, some 6)
  | 1 => (7, some 12)
  | 2 => (13, some 18)
  | 3 => (19, some 22)
  | 4 => (23, some 27)
  | 5 => (28, some 32)
  | 6 => (34, some 37)
  | 7 => (38, some 39)
  | 8 => (39, some 40)
  | 9 => (40, some 41)
  | 10 => (41, some 42)
  | 11 => (42, some 43)
  | 12 => (43, some 44)
  | 13 => (44, some 45)
  | 14 => (45, none)

/-- The characters of `reply` in the documented range of slot `i`. -/
def rangeChars (reply : Str) (i : Fin 15) : Str :=
  match slotRange i with
  | (a, some b) => (reply.drop a).take (b - a)
  | (a, none) => reply.drop a

/-- A sensor in hardware mode with a port attached and initialised. -/
def exampleSensor : Sensor :=
  { fresh 13 15 with
    _serial := some (.HardwareSerial 0), _soft := false, _dirty := false, _ready := true }

/-- The sample reply of the spec. -/
def sampleReply : Str := "(123.4 000.0 234.5 050 060.0 13.5 0 025 1 0 0 0 1 0 0 0".toList

/-- The calls of one protocol exchange on the port `p`. -/
def exchange (p : Stream) : List TransportOp :=
  [.print p "QS\r".toList, .flush p, .readStringUntil p (Char.ofNat 13)]

/-- The number of calls in `ops` that construct a transport. -/
def countNew (ops : List TransportOp) : Nat :=
  ops.countP fun o => match o with
    | .new _ => true
    | _ => false

/-- The number of calls in `ops` that open a transport at a baud rate. -/
def countBegin (ops : List TransportOp) : Nat :=
  ops.countP fun o => match o with
    | .softBegin _ _ => true
    | .hardBegin _ _ => true
    | _ => false

/-- The number of calls in `ops` that set a read timeout. -/
def countSetTimeout (ops : List TransportOp) : Nat :=
  ops.countP fun o => match o with
    | .setTimeout _ _ => true
    | _ => false

/-- Whether a text spells an infinity or a NaN: after leading white space and
an optional sign it starts with `inf` or `nan`, in either case of the
letters. -/
def spellsInfOrNan (cs : Str) : Bool :=
  let t := (readSign (cs.dropWhile isspace)).2
  (t.take 3).map tolower == "inf".toList || (t.take 3).map tolower == "nan".toList

/-- A valid reply whose internal-temperature range 34-37 holds `nan`. -/
def nanReply : Str := "(123.4 000.0 234.5 050 60.0 13.5  nan 00001000".toList

/-- A valid reply whose internal-temperature range 34-37 holds `abc`. -/
def garbledReply : Str := "(123.4 000.0 234.5 050 60.0 13.5  abc 00001000".toList

/-- A decimal numeral: a sign, the digits before the point and the digits
after it (none: the numeral is written without a point). -/
structure Numeral where
  neg : Bool
  intDigits : List (Fin 10)
  fracDigits : List (Fin 10)

/-- The character of a decimal digit. -/
def digitChar (d : Fin 10) : Char := Char.ofNat (48 + d.val)

/-- The natural number written by a list of decimal digits. -/
def natOfDigits (ds : List (Fin 10)) : Nat :=
  ds.foldl (fun n d => 10 * n + d.val) 0

/-- The decimal text of a numeral. -/
def Numeral.text (d : Numeral) : Str :=
  (if d.neg then ['-'] else []) ++ d.intDigits.map digitChar ++
    (if d.fracDigits = [] then [] else '.' :: d.fracDigits.map digitChar)

/-- The value a numeral denotes. -/
def Numeral.value (d : Numeral) : ℚ :=
  (if d.neg then -1 else 1) *
    ((natOfDigits d.intDigits : ℚ) + (natOfDigits d.fracDigits : ℚ) / 10 ^ d.fracDigits.length)

/-- The width of the documented range of a slot; the last slot has none. -/
def slotWidth (i : Fin 15) : Option Nat :=
  match slotRange i with
  | (a, some b) => some (b - a)
  | (_, none) => none

/-- A text written into a range of `w` characters: from the start of the
range, followed by blanks, and cut at the end of the range. -/
def field (w : Nat) (t : Str) : Str := (t ++ List.replicate w ' ').take w

/-- The reply built from 15 numerals: `(`, then the text of each numeral
written into the documented range of its slot, blanks at the indices between
the ranges, and the text of the last numeral from index 45 on. -/
def buildReply (v : Fin 15 → Numeral) : Str :=
  '(' :: (field 5 (v 0).text ++ ' ' :: (field 5 (v 1).text ++ ' ' :: (field 5 (v 2).text ++
    ' ' :: (field 3 (v 3).text ++ ' ' :: (field 4 (v 4).text ++ ' ' :: (field 4 (v 5).text ++
    ' ' :: ' ' :: (field 3 (v 6).text ++ ' ' :: (field 1 (v 7).text ++ (field 1 (v 8).text ++
    (field 1 (v 9).text ++ (field 1 (v 10).text ++ (field 1 (v 11).text ++
    (field 1 (v 12).text ++ (field 1 (v 13).text ++ (v 14).text))))))))))))))

/-- Whether a text is no longer than the documented range of slot `i`. -/
def fitsSlot (i : Fin 15) (t : Str) : Bool :=
  match slotWidth i with
  | some w => decide (t.length ≤ w)
  | none => true

/-- The numerals 123.4, 000.0, 234.5, 050, 60.0, 13.5, 025 and the eight
flags 1 0 0 0 1 0 0 0, one per slot. -/
def sampleNumerals : Fin 15 → Numeral
  | 0 => ⟨false, [1, 2, 3], [4]⟩
  | 1 => ⟨false, [0, 0, 0], [0]⟩
  | 2 => ⟨false, [2, 3, 4], [5]⟩
  | 3 => ⟨false, [0, 5, 0], []⟩
  | 4 => ⟨false, [6, 0], [0]⟩
  | 5 => ⟨false, [1, 3], [5]⟩
  | 6 => ⟨false, [0, 2, 5], []⟩
  | 7 => ⟨false, [1], []⟩
  | 11 => ⟨false, [1], []⟩
  | _ => ⟨false, [0], []⟩

/-- Fifteen numerals, all 0 except the numeral 12 for slot 7. -/
def twelveInSlot7 : Fin 15 → Numeral :=
  fun i => if i = 7 then ⟨false, [1, 2], []⟩ else ⟨false, [0], []⟩

/-- The measurement kind the spec's catalog gives each slot: voltage for slots
0, 1, 2 and 5, load for slot 3, frequency for slot 4, temperature for slot 6
and digital for slots 7 to 14. -/
def catalogKind (i : Fin 15) : Magnitude :=
  if i.val = 0 ∨ i.val = 1 ∨ i.val = 2 ∨ i.val = 5 then .MAGNITUDE_VOLTAGE
  else if i.val = 3 then .MAGNITUDE_LOAD
  else if i.val = 4 then .MAGNITUDE_FREQUENCY
  else if i.val = 6 then .MAGNITUDE_TEMPERATURE
  else .MAGNITUDE_DIGITAL

/-- Whether index `k` of a reply lies in one of the documented ranges 1..5,
7..11, 13..17, 19..21, 23..26, 28..31, 34..36 and 38..end. -/
def inDocumentedRange (k : Nat) : Bool :=
  (decide (1 ≤ k) && decide (k ≤ 5)) || (decide (7 ≤ k) && decide (k ≤ 11)) ||
  (decide (13 ≤ k) && decide (k ≤ 17)) || (decide (19 ≤ k) && decide (k ≤ 21)) ||
  (decide (23 ≤ k) && decide (k ≤ 26)) || (decide (28 ≤ k) && decide (k ≤ 31)) ||
  (decide (34 ≤ k) && decide (k ≤ 36)) || decide (38 ≤ k)

/-- A reply of 46 characters with blanks at the indices 6, 12, 18, 22, 27, 32,
33 and 37. -/
def alignedReply : Str := "(123.4 000.0 234.5 050 60.0 13.5  025 10001000".toList

/-- The reply `alignedReply` with letters at the indices 6, 12, 18, 22, 27,
32, 33 and 37. -/
def alignedReplyOtherGaps : Str := "(123.4a000.0b234.5c050d60.0e13.5fg025h10001000".toList

/-- A call on the public interface of the sensor.  For `pre`, `reply` is what
the transport hands back during the call. -/
inductive Call
  | setRX (pin_rx : Fin 256)
  | setTX (pin_tx : Fin 256)
  | setSerial (serial : Option Nat)
  | getRX
  | getTX
  | begin
  | description
  | slot (index : Fin 15)
  | address (index : Nat)
  | type (index : Fin 15)
  | pre (reply : Str)
  | value (index : Fin 15)

/-- The state of the sensor after one call, `none` where the call dereferences
a null `_serial`.  The bodies of `getRX`, `getTX`, `description`, `slot`,
`address`, `type` and `value` assign no data member, so the state after them
is the state before. -/
def step (s : Sensor) : Call → Option Sensor
  | .setRX pin_rx => some (setRX s pin_rx)
  | .setTX pin_tx => some (setTX s pin_tx)
  | .setSerial serial => some (setSerial s serial)
  | .getRX => some s
  | .getTX => some s
  | .begin => (begin s).map Prod.fst
  | .description => some s
  | .slot _ => some s
  | .address _ => some s
  | .type _ => some s
  | .pre reply => (pre s reply).map Prod.fst
  | .value _ => some s

/-- The state of the sensor after a sequence of calls. -/
def run (s : Sensor) : List Call → Option Sensor
  | [] => some s
  | c :: cs => (step s c).bind fun s' => run s' cs

/-- A sequence of calls in which every reply fails validation: too short,
empty (a timeout), and long enough but not starting with `(`. -/
def failingCalls : List Call :=
  [.setRX 13, .setTX 15, .value 0, .begin, .pre "NAK".toList, .description, .pre [],
   .setSerial (some 0), .begin, .slot 3, .address 0, .type 5,
   .pre "123.4 000.0 234.5 050 60.0 13.5  025 10001000 ".toList, .value 14]

/-- The state `failingCalls` leaves a new sensor in: hardware mode on port 0,
pins 13 and 15, initialised, the last error TIMEOUT, every slot still 0. -/
def failedSensor : Sensor :=
  { exampleSensor with _error := .SENSOR_ERROR_TIMEOUT }

/-! ## Auxiliary lemmas -/

/-! ### Strings and the reply check -/

theorem charAt_zero_eq_iff (r : Str) : charAt r 0 = '(' ↔ r.head? = some '(' := by
  cases r with
  | nil => simp [charAt]
  | cons c t => simp [charAt]

theorem substring_of_le (s : Str) (l r : Nat) (h : l ≤ r) :
    substring s l r = (s.drop l).take (r - l) := by
  unfold substring
  have h1 : ¬ l > r := by omega
  simp only [h1, if_false]
  by_cases h2 : l ≥ s.length
  · simp [h2, List.drop_eq_nil_of_le h2]
  · simp only [h2, if_false]
    by_cases h3 : r > s.length
    · simp only [h3, if_true]
      rw [List.take_of_length_le, List.take_of_length_le]
      · simp; omega
      · simp
    · simp [h3]

theorem substringFrom_eq (s : Str) (l : Nat) : substringFrom s l = s.drop l := by
  unfold substringFrom
  by_cases h : l ≤ s.length
  · rw [substring_of_le s l _ h, List.take_of_length_le]; simp
  · unfold substring
    have : l > s.length := by omega
    simp [this]
    omega

theorem readResponse_eq (s : Sensor) (p : Stream) (hp : s._serial = some p) (count : Nat) (reply : Str) :
    _readResponse s count reply =
      some ({ s with _error := if count ≤ reply.length ∧ reply.head? = some '(' then .SENSOR_ERROR_OK else .SENSOR_ERROR_TIMEOUT },
            reply, [.readStringUntil p (Char.ofNat 13)]) := by
  unfold _readResponse
  simp only [hp]
  by_cases h1 : reply.length < count
  · have : ¬ (count ≤ reply.length) := by omega
    simp [h1, this]
  · by_cases h2 : charAt reply 0 = '('
    · have h3 := (charAt_zero_eq_iff reply).1 h2
      have : count ≤ reply.length := by omega
      simp [h1, h2, h3, this]
    · have h3 : ¬ reply.head? = some '(' := fun h => h2 ((charAt_zero_eq_iff reply).2 h)
      simp [h1, h2, h3]

/-! ### One status query cycle -/

theorem parse_slot_values (s : Sensor) (r : Str) (i : Fin 15) :
    (_parseQueryStatusResponse s r)._slot_values i = toFloat (rangeChars r i) := by
  simp only [_parseQueryStatusResponse, setSlot, substringFrom_eq]
  rw [substring_of_le r 1 6 (by omega), substring_of_le r 7 12 (by omega),
    substring_of_le r 13 18 (by omega), substring_of_le r 19 22 (by omega),
    substring_of_le r 23 27 (by omega), substring_of_le r 28 32 (by omega),
    substring_of_le r 34 37 (by omega), substring_of_le r 38 39 (by omega),
    substring_of_le r 39 40 (by omega), substring_of_le r 40 41 (by omega),
    substring_of_le r 41 42 (by omega), substring_of_le r 42 43 (by omega),
    substring_of_le r 43 44 (by omega), substring_of_le r 44 45 (by omega)]
  fin_cases i <;> simp [Function.update, rangeChars, slotRange]

theorem parse_frame (s : Sensor) (r : Str) :
    (_parseQueryStatusResponse s r)._serial = s._serial ∧
    (_parseQueryStatusResponse s r)._soft = s._soft ∧
    (_parseQueryStatusResponse s r)._pin_rx = s._pin_rx ∧
    (_parseQueryStatusResponse s r)._pin_tx = s._pin_tx ∧
    (_parseQueryStatusResponse s r)._error = s._error ∧
    (_parseQueryStatusResponse s r)._dirty = s._dirty ∧
    (_parseQueryStatusResponse s r)._ready = s._ready ∧
    (_parseQueryStatusResponse s r)._count = s._count := by
  simp [_parseQueryStatusResponse, setSlot]

theorem pre_eq (s : Sensor) (p : Stream) (hp : s._serial = some p) (reply : Str) :
    pre s reply = some
      (if validReply reply then
        _parseQueryStatusResponse { s with _error := .SENSOR_ERROR_OK } reply
       else { s with _error := .SENSOR_ERROR_TIMEOUT }, exchange p) := by
  unfold pre _requestStatus
  simp only [hp, readResponse_eq s p hp, validReply, exchange]
  by_cases h : 46 ≤ reply.length ∧ reply.head? = some '('
  · simp [h]
  · simp [h]

theorem pre_isSome (s : Sensor) (reply : Str) (h : s._serial ≠ none) :
    ∃ p, s._serial = some p ∧ pre s reply = some
      (if validReply reply then
        _parseQueryStatusResponse { s with _error := .SENSOR_ERROR_OK } reply
       else { s with _error := .SENSOR_ERROR_TIMEOUT }, exchange p) := by
  obtain ⟨p, hp⟩ := Option.ne_none_iff_exists'.1 h
  exact ⟨p, hp, pre_eq s p hp reply⟩

/-! ### Initialisation -/

theorem begin_not_dirty (s : Sensor) (h : s._dirty = false) : begin s = some (s, []) := by
  simp [begin, h]

theorem begin_dirty_soft (s : Sensor) (hd : s._dirty = true) (hs : s._soft = true) :
    begin s = some
      ({ s with _serial := some (.SoftwareSerial s._pin_rx s._pin_tx false 64),
                _ready := true, _dirty := false },
        (match s._serial with
          | some old => [TransportOp.delete old]
          | none => []) ++
        [.new (.SoftwareSerial s._pin_rx s._pin_tx false 64),
         .enableIntTx (.SoftwareSerial s._pin_rx s._pin_tx false 64) false,
         .softBegin (.SoftwareSerial s._pin_rx s._pin_tx false 64) 2400,
         .setTimeout (.SoftwareSerial s._pin_rx s._pin_tx false 64) 50]) := by
  simp [begin, hd, hs, VOLTRONIC_BAUD_RATE]

theorem begin_dirty_hard (s : Sensor) (p : Stream) (hd : s._dirty = true) (hs : s._soft = false)
    (hp : s._serial = some p) :
    begin s = some ({ s with _ready := true, _dirty := false },
      [.hardBegin p 2400, .setTimeout p 50]) := by
  simp [begin, hd, hs, hp, VOLTRONIC_BAUD_RATE]

/-! ### Numeric conversion -/

theorem toFloat_of_strtod (cs : Str) (neg : Bool) (m : Nat) (e : Int)
    (hx : strtodHex cs = none) (h : strtodDecimal cs = some (neg, m, e)) :
    toFloat cs = .finite ((if neg then -1 else 1) * (m : ℚ) * (10 : ℚ) ^ e) := by
  simp only [toFloat, atof, strtod, hx, h]

theorem readSign_snd_subset (l : List Char) : ∀ c ∈ (readSign l).2, c ∈ l := by
  cases l with
  | nil => simp [readSign]
  | cons a t =>
    intro c hc
    simp only [readSign] at hc
    split_ifs at hc
    · exact List.mem_cons_of_mem _ hc
    · exact List.mem_cons_of_mem _ hc
    · exact hc

theorem takeWhile_isdigit_nil (l : List Char) (h : ∀ c ∈ l, isdigit c = false) :
    l.takeWhile isdigit = [] := by
  cases l with
  | nil => rfl
  | cons a t =>
    have ha : isdigit a = false := h a (List.mem_cons_self _ _)
    simp [List.takeWhile_cons, ha]

theorem dropWhile_isdigit_self (l : List Char) (h : ∀ c ∈ l, isdigit c = false) :
    l.dropWhile isdigit = l := by
  cases l with
  | nil => rfl
  | cons a t =>
    have ha : isdigit a = false := h a (List.mem_cons_self _ _)
    simp [List.dropWhile_cons, ha]

theorem strtodDecimal_no_digit (cs : List Char) (h : ∀ c ∈ cs, isdigit c = false) :
    strtodDecimal cs = none := by
  have h1 : ∀ c ∈ (readSign (cs.dropWhile isspace)).2, isdigit c = false := fun c hc =>
    h c ((List.dropWhile_sublist _).subset (readSign_snd_subset _ c hc))
  unfold strtodDecimal
  simp only [takeWhile_isdigit_nil _ h1, dropWhile_isdigit_self _ h1]
  cases hs : (readSign (cs.dropWhile isspace)).2 with
  | nil => simp
  | cons a t =>
    have ht : ∀ c ∈ t, isdigit c = false := fun c hc =>
      h1 c (by rw [hs]; exact List.mem_cons_of_mem _ hc)
    by_cases ha : a = '.'
    · simp [ha, takeWhile_isdigit_nil _ ht]
    · simp [ha]

theorem strtodHex_no_digit (cs : List Char) (h : ∀ c ∈ cs, isdigit c = false) :
    strtodHex cs = none := by
  have h1 : ∀ c ∈ (readSign (cs.dropWhile isspace)).2, isdigit c = false := fun c hc =>
    h c ((List.dropWhile_sublist _).subset (readSign_snd_subset _ c hc))
  unfold strtodHex
  simp only []
  split
  · rename_i c0 c1 t heq
    have h0 : isdigit c0 = false := h1 c0 (by rw [heq]; exact List.mem_cons_self _ _)
    have hne : c0 ≠ '0' := by
      rintro rfl
      exact absurd h0 (by decide)
    simp [hne]
  · rfl

theorem strtodSpecial_of_not_spells (cs : List Char) (h : spellsInfOrNan cs = false) :
    strtodSpecial cs = none := by
  have e1 : "inf".toList = ['i', 'n', 'f'] := by decide
  have e2 : "nan".toList = ['n', 'a', 'n'] := by decide
  simp [spellsInfOrNan, e1, e2] at h
  simp [strtodSpecial, startsWithNoCase, h.1, h.2]

theorem toFloat_no_digit (cs : Str) (h : ∀ c ∈ cs, isdigit c = false)
    (hsp : spellsInfOrNan cs = false) : toFloat cs = .finite 0 := by
  simp [toFloat, atof, strtod, strtodHex_no_digit cs h, strtodDecimal_no_digit cs h,
    strtodSpecial_of_not_spells cs hsp]

theorem readSign_snd_length_le (l : List Char) : (readSign l).2.length ≤ l.length := by
  cases l with
  | nil => simp [readSign]
  | cons a t =>
    simp only [readSign]
    split_ifs <;> simp

theorem strtodHex_short (cs : List Char) (h : cs.length ≤ 1) : strtodHex cs = none := by
  have h1 : (readSign (cs.dropWhile isspace)).2.length ≤ 1 :=
    le_trans (readSign_snd_length_le _)
      (le_trans (List.dropWhile_sublist _).length_le h)
  unfold strtodHex
  simp only []
  split
  · rename_i c0 c1 t heq
    rw [heq] at h1
    simp at h1
  · rfl

theorem strtodSpecial_short (cs : List Char) (h : cs.length ≤ 1) : strtodSpecial cs = none := by
  have h1 : (readSign (cs.dropWhile isspace)).2.length ≤ 1 :=
    le_trans (readSign_snd_length_le _)
      (le_trans (List.dropWhile_sublist _).length_le h)
  have key : ∀ (w : List Char), w.length = 3 →
      startsWithNoCase w (readSign (cs.dropWhile isspace)).2 = false := by
    intro w hw
    simp only [startsWithNoCase, beq_eq_false_iff_ne, ne_eq]
    intro e
    have := congrArg List.length e
    simp only [List.length_map, List.length_take, hw] at this
    omega
  simp [strtodSpecial, key ['i', 'n', 'f'] rfl, key ['n', 'a', 'n'] rfl]

theorem atof_short_ne_twelve (cs : Str) (h : cs.length ≤ 1) : atof cs ≠ .finite 12 := by
  have hx := strtodHex_short cs h
  have hs := strtodSpecial_short cs h
  match cs, h, hx, hs with
  | [], _, hx, hs =>
    have : strtodDecimal [] = none := by decide
    simp [atof, strtod, hx, hs, this]
  | [c], _, hx, hs =>
    by_cases hd : isdigit c = true
    · have hb : 48 ≤ c.toNat ∧ c.toNat ≤ 57 := by simpa [isdigit] using hd
      have hsp : isspace c = false := by
        simp only [isspace, Bool.or_eq_false_iff, Bool.and_eq_false_iff, decide_eq_false_iff_not]
        omega
      have hm : c ≠ '-' := by rintro rfl; exact absurd hd (by decide)
      have hp : c ≠ '+' := by rintro rfl; exact absurd hd (by decide)
      have hst : strtodDecimal [c] = some (false, c.toNat - 48, 0) := by
        simp [strtodDecimal, List.dropWhile_cons, hsp, readSign, hm, hp, List.takeWhile_cons, hd,
          digitsValue, readExponent]
      simp only [atof, strtod, hx, hst]
      intro h12
      have h12' : ((c.toNat - 48 : ℕ) : ℚ) = ((12 : ℕ) : ℚ) := by
        simpa using h12
      have := Nat.cast_injective h12'
      omega
    · have hnd : ∀ x ∈ [c], isdigit x = false := by
        intro x hx
        rw [List.mem_singleton.1 hx]
        simpa using hd
      simp [atof, strtod, hx, hs, strtodDecimal_no_digit [c] hnd]

/-! ### Replies built from numerals -/

theorem field_length (w : Nat) (t : Str) : (field w t).length = w := by
  simp [field]

theorem field_of_fits (w : Nat) (t : Str) (h : t.length ≤ w) :
    field w t = t ++ List.replicate (w - t.length) ' ' := by
  unfold field
  rw [List.take_append_eq_append_take, List.take_of_length_le h, List.take_replicate]
  congr 2
  omega

theorem drop_field_append (w : Nat) (t l : Str) (n : Nat) (h : w ≤ n) :
    (field w t ++ l).drop n = l.drop (n - w) := by
  have := @List.drop_append _ (field w t) l (n - w)
  rw [field_length] at this
  rw [← this]
  congr 1
  omega

theorem take_field_append (w : Nat) (t l : Str) : (field w t ++ l).take w = field w t := by
  have := List.take_left (field w t) l
  rwa [field_length] at this

theorem tail_field_one_append (t l : Str) : (field 1 t ++ l).tail = l := by
  rw [← List.drop_one, drop_field_append 1 t l 1 (le_refl 1)]
  rfl

theorem rangeChars_buildReply (v : Fin 15 → Numeral) (i : Fin 15) :
    rangeChars (buildReply v) i =
      match slotWidth i with
      | some w => field w (v i).text
      | none => (v i).text := by
  fin_cases i <;>
    simp [rangeChars, slotRange, slotWidth, buildReply, drop_field_append, take_field_append,
      tail_field_one_append]

theorem digitChar_isdigit : ∀ d : Fin 10, isdigit (digitChar d) = true := by decide

theorem digitChar_not_isspace : ∀ d : Fin 10, isspace (digitChar d) = false := by decide

theorem digitChar_not_sign_or_point :
    ∀ d : Fin 10, digitChar d ≠ '-' ∧ digitChar d ≠ '+' ∧ digitChar d ≠ '.' := by decide

theorem digitChar_toNat : ∀ d : Fin 10, (digitChar d).toNat - 48 = d.val := by decide

theorem foldl_map_digitChar (ds : List (Fin 10)) (n : Nat) :
    (ds.map digitChar).foldl (fun n c => 10 * n + (c.toNat - 48)) n
      = ds.foldl (fun n d => 10 * n + d.val) n := by
  induction ds generalizing n with
  | nil => rfl
  | cons a t ih => simp only [List.map_cons, List.foldl_cons, digitChar_toNat, ih]

theorem digitsValue_map_digitChar (ds : List (Fin 10)) :
    digitsValue (ds.map digitChar) = natOfDigits ds :=
  foldl_map_digitChar ds 0

theorem foldl_digits_init (ds : List (Fin 10)) (n : Nat) :
    ds.foldl (fun n d => 10 * n + d.val) n
      = n * 10 ^ ds.length + ds.foldl (fun n d => 10 * n + d.val) 0 := by
  induction ds generalizing n with
  | nil => simp
  | cons a t ih =>
    simp only [List.foldl_cons, List.length_cons]
    rw [ih (10 * n + a.val), ih (10 * 0 + a.val)]
    ring

theorem natOfDigits_append (a b : List (Fin 10)) :
    natOfDigits (a ++ b) = natOfDigits a * 10 ^ b.length + natOfDigits b := by
  unfold natOfDigits
  rw [List.foldl_append, foldl_digits_init b]

theorem blanks_not_digit (k : Nat) : ∀ c ∈ List.replicate k ' ', isdigit c = false := by
  intro c hc
  rw [List.eq_of_mem_replicate hc]
  decide

theorem readExponent_blanks (k : Nat) : readExponent (List.replicate k ' ') = 0 := by
  cases k with
  | zero => rfl
  | succ k => simp [List.replicate_succ, readExponent]

theorem all_digits (ds : List (Fin 10)) : ∀ c ∈ ds.map digitChar, isdigit c = true := by
  intro c hc
  obtain ⟨d, _, rfl⟩ := List.mem_map.1 hc
  exact digitChar_isdigit d

/-- What `strtodDecimal` reads after the sign of a numeral followed by blanks. -/
theorem strtodDecimal_unsigned (I F : List (Fin 10)) (k : Nat) (hI : I ≠ []) (neg : Bool)
    (s : List Char)
    (hs : readSign (s.dropWhile isspace) = (neg, I.map digitChar ++
      ((if F = [] then [] else '.' :: F.map digitChar) ++ List.replicate k ' '))) :
    strtodDecimal s = some (neg, natOfDigits (I ++ F), -(F.length : Int)) := by
  unfold strtodDecimal
  rw [hs]
  simp only []
  by_cases hF : F = []
  · subst hF
    have ht : (List.map digitChar I ++ ([] ++ List.replicate k ' ')).takeWhile isdigit
        = List.map digitChar I := by
      rw [List.takeWhile_append_of_pos (all_digits I), List.nil_append,
        takeWhile_isdigit_nil _ (blanks_not_digit k), List.append_nil]
    have hd : (List.map digitChar I ++ ([] ++ List.replicate k ' ')).dropWhile isdigit
        = List.replicate k ' ' := by
      rw [List.dropWhile_append_of_pos (all_digits I), List.nil_append,
        dropWhile_isdigit_self _ (blanks_not_digit k)]
    simp only [if_true, ht, hd]
    have hne : List.map digitChar I ≠ [] := by simpa using hI
    cases k with
    | zero =>
      simp [hne, digitsValue_map_digitChar, readExponent]
    | succ k =>
      simp [List.replicate_succ, hne, digitsValue_map_digitChar, readExponent]
  · have ht : (List.map digitChar I ++ ((if F = [] then [] else '.' :: F.map digitChar)
        ++ List.replicate k ' ')).takeWhile isdigit = List.map digitChar I := by
      rw [List.takeWhile_append_of_pos (all_digits I)]
      have hpoint : isdigit '.' = false := by decide
      simp [hF, List.takeWhile_cons, hpoint]
    have hd : (List.map digitChar I ++ ((if F = [] then [] else '.' :: F.map digitChar)
        ++ List.replicate k ' ')).dropWhile isdigit
        = '.' :: (F.map digitChar ++ List.replicate k ' ') := by
      rw [List.dropWhile_append_of_pos (all_digits I)]
      have hpoint : isdigit '.' = false := by decide
      simp [hF, List.dropWhile_cons, hpoint]
    have ht2 : (F.map digitChar ++ List.replicate k ' ').takeWhile isdigit = F.map digitChar := by
      rw [List.takeWhile_append_of_pos (all_digits F),
        takeWhile_isdigit_nil _ (blanks_not_digit k), List.append_nil]
    have hd2 : (F.map digitChar ++ List.replicate k ' ').dropWhile isdigit
        = List.replicate k ' ' := by
      rw [List.dropWhile_append_of_pos (all_digits F),
        dropWhile_isdigit_self _ (blanks_not_digit k)]
    have hne : List.map digitChar I ≠ [] := by simpa using hI
    simp only [ht, hd, if_true, ht2, hd2, readExponent_blanks]
    simp [hne, ← List.map_append, digitsValue_map_digitChar]

theorem readSign_numeral (d : Numeral) (k : Nat) (hint : d.intDigits ≠ []) :
    readSign ((d.text ++ List.replicate k ' ').dropWhile isspace) =
      (d.neg, d.intDigits.map digitChar ++
        ((if d.fracDigits = [] then [] else '.' :: d.fracDigits.map digitChar)
          ++ List.replicate k ' ')) := by
  obtain ⟨neg, I, F⟩ := d
  cases I with
  | nil => exact absurd rfl hint
  | cons i0 It =>
    have h0 := digitChar_not_isspace i0
    have h1 := digitChar_not_sign_or_point i0
    cases neg with
    | true =>
      have hm : isspace '-' = false := by decide
      simp [Numeral.text, List.dropWhile_cons, hm, readSign]
    | false =>
      simp [Numeral.text, List.dropWhile_cons, h0, readSign, h1.1, h1.2.1]

theorem digitChar_not_x : ∀ d : Fin 10, digitChar d ≠ 'x' ∧ digitChar d ≠ 'X' := by decide

theorem strtodHex_numeral (d : Numeral) (k : Nat) (hint : d.intDigits ≠ []) :
    strtodHex (d.text ++ List.replicate k ' ') = none := by
  unfold strtodHex
  rw [readSign_numeral d k hint]
  obtain ⟨neg, I, F⟩ := d
  match I, hint with
  | [i0], _ =>
    by_cases hF : F = []
    · cases k with
      | zero => simp [hF]
      | succ k => simp [hF, List.replicate_succ]
    · simp [hF]
  | i0 :: i1 :: It, _ =>
    have hx := digitChar_not_x i1
    simp [hx.1, hx.2]

theorem strtodDecimal_numeral (d : Numeral) (k : Nat) (hint : d.intDigits ≠ []) :
    strtodDecimal (d.text ++ List.replicate k ' ')
      = some (d.neg, natOfDigits (d.intDigits ++ d.fracDigits), -(d.fracDigits.length : Int)) := by
  apply strtodDecimal_unsigned d.intDigits d.fracDigits k hint
  obtain ⟨neg, I, F⟩ := d
  cases I with
  | nil => exact absurd rfl hint
  | cons i0 It =>
    have h0 := digitChar_not_isspace i0
    have h1 := digitChar_not_sign_or_point i0
    cases neg with
    | true =>
      have hm : isspace '-' = false := by decide
      simp [Numeral.text, List.dropWhile_cons, hm, readSign]
    | false =>
      simp [Numeral.text, List.dropWhile_cons, h0, readSign, h1.1, h1.2.1]

theorem toFloat_numeral (d : Numeral) (k : Nat) (hint : d.intDigits ≠ []) :
    toFloat (d.text ++ List.replicate k ' ') = .finite d.value := by
  rw [toFloat_of_strtod _ _ _ _ (strtodHex_numeral d k hint) (strtodDecimal_numeral d k hint),
    natOfDigits_append, Numeral.value]
  congr 1
  have h10 : ((10 : ℚ) ^ d.fracDigits.length) ≠ 0 := pow_ne_zero _ (by norm_num)
  rw [zpow_neg, zpow_natCast]
  push_cast
  field_simp

theorem toFloat_field (d : Numeral) (w : Nat) (hint : d.intDigits ≠ [])
    (hfit : d.text.length ≤ w) : toFloat (field w d.text) = .finite d.value := by
  rw [field_of_fits w _ hfit, toFloat_numeral d _ hint]

theorem buildReply_valid (v : Fin 15 → Numeral) (hint : (v 14).intDigits ≠ []) :
    validReply (buildReply v) := by
  have h14 : 1 ≤ (v 14).text.length := by
    cases h : (v 14).intDigits with
    | nil => exact absurd h hint
    | cons a t => simp [Numeral.text, h]; omega
  constructor
  · simp [buildReply, field_length]; omega
  · rfl

/-! ### Descriptive texts -/

set_option maxRecDepth 100000 in
theorem fmtU_length_le : ∀ n : Fin 256, (fmtU n.val).length ≤ 3 := by decide

theorem slot_name_length_le :
    ∀ i : Fin 15, i ≠ 11 → (slot_spec i).1.toList.length ≤ 22 := by decide

/-- Where `slot` cuts nothing: in hardware mode, and in software mode for every
slot but slot 11 when the stored pins are below 256. -/
theorem slot_not_cut (s : Sensor) (i : Fin 15)
    (h : s._soft = false ∨ (i ≠ 11 ∧ s._pin_rx < 256 ∧ s._pin_tx < 256)) :
    slot s i = (slot_spec i).1.toList ++ " @ ".toList ++ description s := by
  cases hs : s._soft with
  | false =>
    simp only [slot, description, hs, snprintf, Bool.false_eq_true, if_false]
    have hd : "UPS Voltronic @ HwSerial".toList.take 38 = "UPS Voltronic @ HwSerial".toList := by
      decide
    rw [hd]
    have hl : ∀ i : Fin 15, ((slot_spec i).1.toList ++
        " @ UPS Voltronic @ HwSerial".toList).length ≤ 67 - 1 := by decide
    rw [List.take_of_length_le (hl i)]
    have : " @ UPS Voltronic @ HwSerial".toList
        = " @ ".toList ++ "UPS Voltronic @ HwSerial".toList := by decide
    rw [this, List.append_assoc]
  | true =>
    rcases h with h | ⟨hi, hrx, htx⟩
    · rw [hs] at h; cases h
    · have h1 := fmtU_length_le ⟨s._pin_rx, hrx⟩
      have h2 := fmtU_length_le ⟨s._pin_tx, htx⟩
      have h3 := slot_name_length_le i hi
      simp only [] at h1 h2
      have e1 : " @ UPS Voltronic @ SwSerial(".toList.length = 28 := by decide
      have e2 : "UPS Voltronic @ SwSerial(".toList.length = 25 := by decide
      have e3 : ",".toList.length = 1 := by decide
      have e4 : ")".toList.length = 1 := by decide
      have e5 : " @ UPS Voltronic @ SwSerial(".toList
          = " @ ".toList ++ "UPS Voltronic @ SwSerial(".toList := by decide
      simp only [slot, description, hs, snprintf, if_true]
      rw [List.take_of_length_le, List.take_of_length_le]
      · rw [e5]; simp only [List.append_assoc]
      · simp only [List.length_append, e2, e3, e4]; omega
      · simp only [List.length_append, e1, e3, e4]; omega

/-! ### Replies that agree on the documented ranges -/

theorem take_drop_congr (r1 r2 : Str) (a w : Nat)
    (h : ∀ k, k < w → r1[a + k]? = r2[a + k]?) :
    (r1.drop a).take w = (r2.drop a).take w := by
  apply List.ext_getElem?
  intro k
  rw [List.getElem?_take, List.getElem?_take, List.getElem?_drop, List.getElem?_drop]
  by_cases hk : k < w
  · simp [hk, h k hk]
  · simp [hk]

theorem drop_congr (r1 r2 : Str) (a : Nat) (h : ∀ k, r1[a + k]? = r2[a + k]?) :
    r1.drop a = r2.drop a := by
  apply List.ext_getElem?
  intro k
  rw [List.getElem?_drop, List.getElem?_drop]
  exact h k

theorem rangeChars_congr (r1 r2 : Str)
    (h : ∀ k : Nat, inDocumentedRange k = true → r1[k]? = r2[k]?) (i : Fin 15) :
    rangeChars r1 i = rangeChars r2 i := by
  fin_cases i <;> simp only [rangeChars, slotRange]
  case «14» =>
    exact drop_congr r1 r2 45 fun k => h _ (by simp [inDocumentedRange]; omega)
  all_goals
    apply take_drop_congr
    intro k hk
    apply h
    simp only [inDocumentedRange, Bool.or_eq_true, Bool.and_eq_true, decide_eq_true_eq]
    omega

/-! ### Sequences of calls -/

theorem begin_slot_values (s t : Sensor) (ops : List TransportOp)
    (h : begin s = some (t, ops)) : t._slot_values = s._slot_values := by
  unfold begin at h
  by_cases hd : s._dirty = true
  · by_cases hs : s._soft = true
    · simp [hd, hs] at h
      rw [← h.1]
    · cases hp : s._serial with
      | none => simp [hd, hs, hp] at h
      | some p =>
        simp [hd, hs, hp] at h
        rw [← h.1]
  · simp [hd] at h
    rw [← h.1]

theorem pre_invalid_slot_values (s t : Sensor) (ops : List TransportOp) (reply : Str)
    (hbad : ¬ (46 ≤ reply.length ∧ reply.head? = some '('))
    (h : pre s reply = some (t, ops)) : t._slot_values = s._slot_values := by
  cases hp : s._serial with
  | none => simp [pre, _requestStatus, hp] at h
  | some p =>
    rw [pre_eq s p hp reply] at h
    have hv : ¬ validReply reply := hbad
    simp only [hv, if_false, Option.some.injEq, Prod.mk.injEq] at h
    rw [← h.1]

theorem step_slot_values (s t : Sensor) (c : Call)
    (hbad : ∀ reply, c = .pre reply → ¬ (46 ≤ reply.length ∧ reply.head? = some '('))
    (h : step s c = some t) : t._slot_values = s._slot_values := by
  cases c with
  | setRX p =>
    simp only [step, Option.some.injEq] at h
    rw [← h]; unfold setRX; split <;> rfl
  | setTX p =>
    simp only [step, Option.some.injEq] at h
    rw [← h]; unfold setTX; split <;> rfl
  | setSerial serial =>
    simp only [step, Option.some.injEq] at h
    rw [← h]; rfl
  | begin =>
    simp only [step, Option.map_eq_some'] at h
    obtain ⟨⟨t', ops⟩, hb, rfl⟩ := h
    exact begin_slot_values s t' ops hb
  | pre reply =>
    simp only [step, Option.map_eq_some'] at h
    obtain ⟨⟨t', ops⟩, hb, rfl⟩ := h
    exact pre_invalid_slot_values s t' ops reply (hbad reply rfl) hb
  | _ =>
    simp only [step, Option.some.injEq] at h
    rw [← h]

theorem run_slot_values (calls : List Call) (s t : Sensor)
    (hbad : ∀ reply, Call.pre reply ∈ calls → ¬ (46 ≤ reply.length ∧ reply.head? = some '('))
    (h : run s calls = some t) : t._slot_values = s._slot_values := by
  induction calls generalizing s with
  | nil =>
    simp only [run, Option.some.injEq] at h
    rw [← h]
  | cons c cs ih =>
    simp only [run, Option.bind_eq_some] at h
    obtain ⟨s1, h1, h2⟩ := h
    have e1 := step_slot_values s s1 c
      (fun reply hc => hbad reply (by rw [hc]; exact List.mem_cons_self _ _)) h1
    have e2 := ih s1 (fun reply hm => hbad reply (List.mem_cons_of_mem _ hm)) h2
    rw [e2, e1]

/-! ## The claims -/

/-! ### C1 -/

/-- C1: with a transport attached, pre-read returns, and the error state it
leaves is OK exactly when the reply has at least 46 characters and starts with
`(`, and TIMEOUT in every other case; the error state left by an earlier cycle
has no influence on it. -/
theorem pre_error_ok_iff_valid (s : Sensor) (reply : Str) (h : s._serial ≠ none) :
    ∃ s' ops, pre s reply = some (s', ops) ∧
      (s'._error = .SENSOR_ERROR_OK ↔ (46 ≤ reply.length ∧ reply.head? = some '(')) ∧
      (¬ (46 ≤ reply.length ∧ reply.head? = some '(') → s'._error = .SENSOR_ERROR_TIMEOUT) ∧
      ∀ e : SensorError, ∃ t' ops', pre { s with _error := e } reply = some (t', ops') ∧
        t'._error = s'._error := by
  obtain ⟨p, hp, hpre⟩ := pre_isSome s reply h
  have key : ∀ t : Sensor, (if validReply reply then
        _parseQueryStatusResponse { t with _error := .SENSOR_ERROR_OK } reply
       else { t with _error := .SENSOR_ERROR_TIMEOUT })._error =
       if validReply reply then .SENSOR_ERROR_OK else .SENSOR_ERROR_TIMEOUT := by
    intro t
    by_cases hv : validReply reply
    · simp [hv, (parse_frame _ reply).2.2.2.2.1]
    · simp [hv]
  refine ⟨_, _, hpre, ?_, ?_, ?_⟩
  · rw [key]
    by_cases hv : validReply reply
    · simp only [hv, if_true, true_iff]; exact hv
    · simp only [hv, if_false]; constructor
      · intro h'; cases h'
      · intro h'; exact absurd h' hv
  · intro hv
    rw [key]
    have : ¬ validReply reply := hv
    simp [this]
  · intro e
    exact ⟨_, _, pre_eq { s with _error := e } p hp reply, (key _).trans (key s).symm⟩

/-- Witness for `pre_error_ok_iff_valid`. -/
theorem pre_error_ok_iff_valid_witness :
    exampleSensor._serial ≠ none ∧
    ∃ s' ops, pre exampleSensor sampleReply = some (s', ops) ∧
      (s'._error = .SENSOR_ERROR_OK ↔ (46 ≤ sampleReply.length ∧ sampleReply.head? = some '(')) ∧
      (¬ (46 ≤ sampleReply.length ∧ sampleReply.head? = some '(') → s'._error = .SENSOR_ERROR_TIMEOUT) ∧
      ∀ e : SensorError, ∃ t' ops', pre { exampleSensor with _error := e } sampleReply = some (t', ops') ∧
        t'._error = s'._error :=
  ⟨by decide, pre_error_ok_iff_valid exampleSensor sampleReply (by decide)⟩

/-! ### C2 -/

/-- C2: with a transport attached, a reply shorter than 46 characters or not
starting with `(` leaves every cached slot value as it was and sets the error
state to TIMEOUT. -/
theorem pre_invalid_keeps_slots (s : Sensor) (reply : Str) (h : s._serial ≠ none)
    (hbad : reply.length < 46 ∨ reply.head? ≠ some '(') :
    ∃ s' ops, pre s reply = some (s', ops) ∧
      (∀ i : Fin 15, s'._slot_values i = s._slot_values i) ∧
      s'._error = .SENSOR_ERROR_TIMEOUT := by
  obtain ⟨p, _, hpre⟩ := pre_isSome s reply h
  have hv : ¬ validReply reply := by
    intro hv
    rcases hbad with h1 | h1
    · exact absurd hv.1 (by omega)
    · exact h1 hv.2
  simp only [hv, if_false] at hpre
  exact ⟨_, _, hpre, fun _ => rfl, rfl⟩

/-- Witness for `pre_invalid_keeps_slots`: a reply of three characters. -/
theorem pre_invalid_keeps_slots_witness :
    exampleSensor._serial ≠ none ∧
    ("(1 ".toList.length < 46 ∨ "(1 ".toList.head? ≠ some '(') ∧
    ∃ s' ops, pre exampleSensor "(1 ".toList = some (s', ops) ∧
      (∀ i : Fin 15, s'._slot_values i = exampleSensor._slot_values i) ∧
      s'._error = .SENSOR_ERROR_TIMEOUT :=
  ⟨by decide, by decide, pre_invalid_keeps_slots exampleSensor "(1 ".toList (by decide) (by decide)⟩

/-! ### C3 -/

/-- C3: with a transport attached and a reply that passes validation, after
pre-read every slot holds the numeric parse of the reply's characters in its
documented range (start included, end excluded; slot 14 to the end). -/
theorem pre_valid_slots_from_ranges (s : Sensor) (reply : Str) (h : s._serial ≠ none)
    (hlen : 46 ≤ reply.length) (hfirst : reply.head? = some '(') :
    ∃ s' ops, pre s reply = some (s', ops) ∧
      ∀ i : Fin 15, s'._slot_values i = toFloat (rangeChars reply i) := by
  obtain ⟨p, _, hpre⟩ := pre_isSome s reply h
  have hv : validReply reply := ⟨hlen, hfirst⟩
  simp only [hv, if_true] at hpre
  exact ⟨_, _, hpre, fun i => parse_slot_values _ reply i⟩

/-- Witness for `pre_valid_slots_from_ranges`: the sample reply. -/
theorem pre_valid_slots_from_ranges_witness :
    exampleSensor._serial ≠ none ∧ 46 ≤ sampleReply.length ∧ sampleReply.head? = some '(' ∧
    ∃ s' ops, pre exampleSensor sampleReply = some (s', ops) ∧
      ∀ i : Fin 15, s'._slot_values i = toFloat (rangeChars sampleReply i) :=
  ⟨by decide, by decide, by decide,
    pre_valid_slots_from_ranges exampleSensor sampleReply (by decide) (by decide) (by decide)⟩

/-! ### C4 -/

/-- C4 (as amended): with a transport attached, for every choice of 15 decimal
numerals with at least one digit before the point, each (except the last) no
longer than the documented range of its slot, the reply built from them has at
least 46 characters, is accepted by pre-read with error OK, and every slot
then holds the value of its numeral. -/
theorem pre_buildReply_roundtrip (s : Sensor) (v : Fin 15 → Numeral) (h : s._serial ≠ none)
    (hint : ∀ i : Fin 15, (v i).intDigits ≠ [])
    (hfit : ∀ i : Fin 15, fitsSlot i (v i).text = true) :
    46 ≤ (buildReply v).length ∧
    ∃ s' ops, pre s (buildReply v) = some (s', ops) ∧
      s'._error = .SENSOR_ERROR_OK ∧
      ∀ i : Fin 15, s'._slot_values i = .finite (v i).value := by
  obtain ⟨p, _, hpre⟩ := pre_isSome s (buildReply v) h
  have hv : validReply (buildReply v) := buildReply_valid v (hint 14)
  simp only [hv, if_true] at hpre
  refine ⟨hv.1, _, _, hpre, (parse_frame _ _).2.2.2.2.1, fun i => ?_⟩
  rw [parse_slot_values, rangeChars_buildReply]
  have hi := hfit i
  unfold fitsSlot at hi
  cases hw : slotWidth i with
  | none =>
    have := toFloat_numeral (v i) 0 (hint i)
    simpa using this
  | some w =>
    rw [hw] at hi
    exact toFloat_field (v i) w (hint i) (by simpa using hi)

/-- Witness for `pre_buildReply_roundtrip`: the numerals `sampleNumerals`. -/
theorem pre_buildReply_roundtrip_witness :
    exampleSensor._serial ≠ none ∧ (∀ i : Fin 15, (sampleNumerals i).intDigits ≠ []) ∧
    (∀ i : Fin 15, fitsSlot i (sampleNumerals i).text = true) ∧
    46 ≤ (buildReply sampleNumerals).length ∧
    ∃ s' ops, pre exampleSensor (buildReply sampleNumerals) = some (s', ops) ∧
      s'._error = .SENSOR_ERROR_OK ∧
      ∀ i : Fin 15, s'._slot_values i = .finite (sampleNumerals i).value :=
  ⟨by decide, by decide, by decide,
    pre_buildReply_roundtrip exampleSensor sampleNumerals (by decide) (by decide) (by decide)⟩

/-- C4 (counterexample): for the choice of 15 values that has 12 for slot 7,
the reply built from their decimal texts is accepted and slot 7 decodes to 1,
not 12; and no reply at all makes an accepted pre-read leave 12 in slot 7. -/
theorem buildReply_roundtrip_fails :
    (twelveInSlot7 7).value = 12 ∧
    (∃ s' ops, pre exampleSensor (buildReply twelveInSlot7) = some (s', ops) ∧
      s'._error = .SENSOR_ERROR_OK ∧ s'._slot_values 7 = .finite 1) ∧
    ∀ (s : Sensor) (reply : Str) (s' : Sensor) (ops : List TransportOp),
      pre s reply = some (s', ops) → s'._error = .SENSOR_ERROR_OK →
        s'._slot_values 7 ≠ .finite 12 := by
  refine ⟨?_, ?_, ?_⟩
  · have : natOfDigits [1, 2] = 12 := by decide
    simp [twelveInSlot7, Numeral.value, this, natOfDigits]
  · have hpre := pre_eq exampleSensor (.HardwareSerial 0) rfl (buildReply twelveInSlot7)
    have hv : validReply (buildReply twelveInSlot7) := by decide
    simp only [hv, if_true] at hpre
    refine ⟨_, _, hpre, (parse_frame _ _).2.2.2.2.1, ?_⟩
    rw [parse_slot_values, toFloat_of_strtod _ false 1 0 (by decide) (by decide)]
    norm_num
  · intro s reply s' ops hpre herr
    cases hser : s._serial with
    | none => simp [pre, _requestStatus, hser] at hpre
    | some p =>
      rw [pre_eq s p hser reply] at hpre
      simp only [Option.some.injEq, Prod.mk.injEq] at hpre
      by_cases hv : validReply reply
      · simp only [hv, if_true] at hpre
        rw [← hpre.1, parse_slot_values]
        apply atof_short_ne_twelve
        simp [rangeChars, slotRange]
      · simp only [hv, if_false] at hpre
        rw [← hpre.1] at herr
        cases herr

/-! ### C5 -/

/-- C5 (as amended): with a transport attached, the sample reply of the spec is
accepted with error OK and decodes to 123.4, 0, 234.5, 50 and 60 in slots 0 to
4, and to 13 in slot 5, whose range 28-32 holds the four characters ` 13.`. -/
theorem pre_sample_reply (s : Sensor) (h : s._serial ≠ none) :
    ∃ s' ops, pre s sampleReply = some (s', ops) ∧
      s'._error = .SENSOR_ERROR_OK ∧
      s'._slot_values 0 = .finite 123.4 ∧ s'._slot_values 1 = .finite 0 ∧
      s'._slot_values 2 = .finite 234.5 ∧ s'._slot_values 3 = .finite 50 ∧
      s'._slot_values 4 = .finite 60 ∧ s'._slot_values 5 = .finite 13 ∧
      rangeChars sampleReply 5 = " 13.".toList ∧ sampleReply.length = 55 := by
  obtain ⟨p, _, hpre⟩ := pre_isSome s sampleReply h
  have hv : validReply sampleReply := by decide
  simp only [hv, if_true] at hpre
  refine ⟨_, _, hpre, (parse_frame _ _).2.2.2.2.1, ?_, ?_, ?_, ?_, ?_, ?_, by decide, by decide⟩
  · rw [parse_slot_values, toFloat_of_strtod _ false 1234 (-1) (by decide) (by decide)]; norm_num
  · rw [parse_slot_values, toFloat_of_strtod _ false 0 (-1) (by decide) (by decide)]; norm_num
  · rw [parse_slot_values, toFloat_of_strtod _ false 2345 (-1) (by decide) (by decide)]; norm_num
  · rw [parse_slot_values, toFloat_of_strtod _ false 50 0 (by decide) (by decide)]; norm_num
  · rw [parse_slot_values, toFloat_of_strtod _ false 60 0 (by decide) (by decide)]; norm_num
  · rw [parse_slot_values, toFloat_of_strtod _ false 13 0 (by decide) (by decide)]; norm_num

/-- Witness for `pre_sample_reply`. -/
theorem pre_sample_reply_witness :
    exampleSensor._serial ≠ none ∧
    ∃ s' ops, pre exampleSensor sampleReply = some (s', ops) ∧
      s'._error = .SENSOR_ERROR_OK ∧
      s'._slot_values 0 = .finite 123.4 ∧ s'._slot_values 1 = .finite 0 ∧
      s'._slot_values 2 = .finite 234.5 ∧ s'._slot_values 3 = .finite 50 ∧
      s'._slot_values 4 = .finite 60 ∧ s'._slot_values 5 = .finite 13 ∧
      rangeChars sampleReply 5 = " 13.".toList ∧ sampleReply.length = 55 :=
  ⟨by decide, pre_sample_reply exampleSensor (by decide)⟩

/-- C5 (counterexample): on the sample reply of the spec, pre-read does not
reproduce the battery voltage 13.5 in slot 5: whatever state it returns holds
13 there. -/
theorem pre_sample_reply_slot5_not_13_5 :
    ¬ ∃ s' ops, pre exampleSensor sampleReply = some (s', ops) ∧
      s'._error = .SENSOR_ERROR_OK ∧
      s'._slot_values 0 = .finite 123.4 ∧ s'._slot_values 1 = .finite 0 ∧
      s'._slot_values 2 = .finite 234.5 ∧ s'._slot_values 3 = .finite 50 ∧
      s'._slot_values 4 = .finite 60 ∧ s'._slot_values 5 = .finite 13.5 := by
  rintro ⟨s', ops, hpre, -, -, -, -, -, -, h5⟩
  rw [pre_eq exampleSensor (.HardwareSerial 0) rfl sampleReply] at hpre
  have hv : validReply sampleReply := by decide
  simp only [hv, if_true, Option.some.injEq, Prod.mk.injEq] at hpre
  rw [← hpre.1, parse_slot_values, toFloat_of_strtod _ false 13 0 (by decide) (by decide)] at h5
  norm_num at h5

/-! ### C6 -/

/-- C6 (as amended): with a transport attached and a reply of valid length and
first character, if the range of slot `i` holds no decimal digit and does not
spell an infinity or a NaN (`inf` or `nan` after optional white space and
sign, in either case of the letters), pre-read returns with error OK, slot `i`
holds 0, every other slot holds the parse of its own range, and those slots
hold the same values after any other valid reply that differs from this one
only outside their ranges. -/
theorem pre_non_numeric_field (s : Sensor) (reply : Str) (i : Fin 15) (h : s._serial ≠ none)
    (hlen : 46 ≤ reply.length) (hfirst : reply.head? = some '(')
    (hnon : ∀ c ∈ rangeChars reply i, isdigit c = false)
    (hword : spellsInfOrNan (rangeChars reply i) = false) :
    ∃ s' ops, pre s reply = some (s', ops) ∧
      s'._slot_values i = .finite 0 ∧ s'._error = .SENSOR_ERROR_OK ∧
      (∀ j : Fin 15, j ≠ i → s'._slot_values j = toFloat (rangeChars reply j)) ∧
      ∀ reply' : Str, 46 ≤ reply'.length → reply'.head? = some '(' →
        (∀ j : Fin 15, j ≠ i → rangeChars reply' j = rangeChars reply j) →
        ∃ t' ops', pre s reply' = some (t', ops') ∧ t'._error = .SENSOR_ERROR_OK ∧
          ∀ j : Fin 15, j ≠ i → t'._slot_values j = s'._slot_values j := by
  obtain ⟨p, hp, hpre⟩ := pre_isSome s reply h
  have hv : validReply reply := ⟨hlen, hfirst⟩
  simp only [hv, if_true] at hpre
  refine ⟨_, _, hpre, ?_, (parse_frame _ _).2.2.2.2.1, fun j _ => parse_slot_values _ reply j, ?_⟩
  · rw [parse_slot_values, toFloat_no_digit _ hnon hword]
  · intro reply' hlen' hfirst' hsame
    have hpre' := pre_eq s p hp reply'
    have hv' : validReply reply' := ⟨hlen', hfirst'⟩
    simp only [hv', if_true] at hpre'
    refine ⟨_, _, hpre', (parse_frame _ _).2.2.2.2.1, fun j hj => ?_⟩
    rw [parse_slot_values, parse_slot_values, hsame j hj]

/-- Witness for `pre_non_numeric_field`: slot 6 of `garbledReply`. -/
theorem pre_non_numeric_field_witness :
    exampleSensor._serial ≠ none ∧ 46 ≤ garbledReply.length ∧ garbledReply.head? = some '(' ∧
    (∀ c ∈ rangeChars garbledReply 6, isdigit c = false) ∧
    spellsInfOrNan (rangeChars garbledReply 6) = false ∧
    ∃ s' ops, pre exampleSensor garbledReply = some (s', ops) ∧
      s'._slot_values 6 = .finite 0 ∧ s'._error = .SENSOR_ERROR_OK ∧
      (∀ j : Fin 15, j ≠ 6 → s'._slot_values j = toFloat (rangeChars garbledReply j)) ∧
      ∀ reply' : Str, 46 ≤ reply'.length → reply'.head? = some '(' →
        (∀ j : Fin 15, j ≠ 6 → rangeChars reply' j = rangeChars garbledReply j) →
        ∃ t' ops', pre exampleSensor reply' = some (t', ops') ∧ t'._error = .SENSOR_ERROR_OK ∧
          ∀ j : Fin 15, j ≠ 6 → t'._slot_values j = s'._slot_values j :=
  ⟨by decide, by decide, by decide, by decide, by decide,
    pre_non_numeric_field exampleSensor garbledReply 6 (by decide) (by decide) (by decide)
      (by decide) (by decide)⟩

/-- C6 (counterexample): the reply `nanReply` has valid length and first
character and its range 34-37 of slot 6 holds `nan`, a text without any digit;
pre-read accepts it with error OK and slot 6 then holds a NaN, not 0. -/
theorem pre_nan_field_not_zero :
    46 ≤ nanReply.length ∧ nanReply.head? = some '(' ∧
    rangeChars nanReply 6 = "nan".toList ∧
    (∀ c ∈ rangeChars nanReply 6, isdigit c = false) ∧
    ∃ s' ops, pre exampleSensor nanReply = some (s', ops) ∧
      s'._error = .SENSOR_ERROR_OK ∧ s'._slot_values 6 = .nan ∧
      s'._slot_values 6 ≠ .finite 0 := by
  have hpre := pre_eq exampleSensor (.HardwareSerial 0) rfl nanReply
  have hv : validReply nanReply := by decide
  simp only [hv, if_true] at hpre
  have h6 : toFloat (rangeChars nanReply 6) = .nan := by decide
  refine ⟨by decide, by decide, by decide, by decide, _, _, hpre,
    (parse_frame _ _).2.2.2.2.1, ?_, ?_⟩
  · rw [parse_slot_values, h6]
  · rw [parse_slot_values, h6]
    intro h
    cases h

/-! ### C7 -/

/-- C7: `begin` is idempotent.  On a state that is not Dirty it makes no call
on the transport and leaves the state as it is.  On a state where it can run
(software mode, or a port attached), it returns, a second `begin` right after
it makes no call and changes nothing, and when the state was Dirty the two
calls together open the transport once, set its timeout once and construct a
transport once in software mode and never in hardware mode. -/
theorem begin_idempotent (s : Sensor) (h : s._soft = true ∨ s._serial ≠ none) :
    (s._dirty = false → begin s = some (s, [])) ∧
    ∃ s1 ops1 s2 ops2, begin s = some (s1, ops1) ∧ begin s1 = some (s2, ops2) ∧
      s2 = s1 ∧ ops2 = [] ∧
      (s._dirty = true →
        countBegin (ops1 ++ ops2) = 1 ∧ countSetTimeout (ops1 ++ ops2) = 1 ∧
        countNew (ops1 ++ ops2) = if s._soft then 1 else 0) := by
  refine ⟨begin_not_dirty s, ?_⟩
  cases hd : s._dirty with
  | false =>
    exact ⟨s, [], s, [], begin_not_dirty s hd, begin_not_dirty s hd, rfl, rfl,
      fun h' => by cases h'⟩
  | true =>
    cases hs : s._soft with
    | true =>
      refine ⟨_, _, _, [], begin_dirty_soft s hd hs, begin_not_dirty _ rfl, rfl, rfl, fun _ => ?_⟩
      cases s._serial <;> simp [countBegin, countSetTimeout, countNew, List.countP_cons]
    | false =>
      have hne : s._serial ≠ none := by
        rcases h with h | h
        · rw [hs] at h; cases h
        · exact h
      obtain ⟨p, hp⟩ := Option.ne_none_iff_exists'.1 hne
      refine ⟨_, _, _, [], begin_dirty_hard s p hd hs hp, begin_not_dirty _ rfl, rfl, rfl,
        fun _ => ?_⟩
      simp [countBegin, countSetTimeout, countNew, List.countP_cons]

/-- Witness for `begin_idempotent`: a new sensor on pins 13 and 15. -/
theorem begin_idempotent_witness :
    ((fresh 13 15)._soft = true ∨ (fresh 13 15)._serial ≠ none) ∧
    ((fresh 13 15)._dirty = false → begin (fresh 13 15) = some (fresh 13 15, [])) ∧
    ∃ s1 ops1 s2 ops2, begin (fresh 13 15) = some (s1, ops1) ∧ begin s1 = some (s2, ops2) ∧
      s2 = s1 ∧ ops2 = [] ∧
      ((fresh 13 15)._dirty = true →
        countBegin (ops1 ++ ops2) = 1 ∧ countSetTimeout (ops1 ++ ops2) = 1 ∧
        countNew (ops1 ++ ops2) = if (fresh 13 15)._soft then 1 else 0) :=
  ⟨Or.inl rfl, begin_idempotent (fresh 13 15) (Or.inl rfl)⟩

/-! ### C8 -/

/-- C8: `setRX` and `setTX` with the stored pin leave the state as it is;
with another pin they store it (`getRX`, `getTX` return it), mark the
configuration Dirty and leave the other pin, the transport handle, the mode
and the slot values as they were. -/
theorem setRX_setTX_frame (s : Sensor) (p : Fin 256) :
    (s._pin_rx = p.val → setRX s p = s) ∧
    (s._pin_rx ≠ p.val →
      (setRX s p)._pin_rx = p.val ∧ getRX (setRX s p) = p.val ∧ (setRX s p)._dirty = true ∧
      (setRX s p)._pin_tx = s._pin_tx ∧ (setRX s p)._serial = s._serial ∧
      (setRX s p)._soft = s._soft ∧ (setRX s p)._slot_values = s._slot_values) ∧
    (s._pin_tx = p.val → setTX s p = s) ∧
    (s._pin_tx ≠ p.val →
      (setTX s p)._pin_tx = p.val ∧ getTX (setTX s p) = p.val ∧ (setTX s p)._dirty = true ∧
      (setTX s p)._pin_rx = s._pin_rx ∧ (setTX s p)._serial = s._serial ∧
      (setTX s p)._soft = s._soft ∧ (setTX s p)._slot_values = s._slot_values) := by
  have hp : p.val % 256 = p.val := Nat.mod_eq_of_lt p.isLt
  refine ⟨fun h => by simp [setRX, h], fun h => ?_, fun h => by simp [setTX, h], fun h => ?_⟩
  · simp [setRX, getRX, h, hp]
  · simp [setTX, getTX, h, hp]

/-- Witness for `setRX_setTX_frame`: on a new sensor with pins 13 and 15,
setting RX to 13 changes nothing, and setting RX to 4 stores 4 and marks the
configuration Dirty; likewise for TX with 15 and 4. -/
theorem setRX_setTX_frame_witness :
    setRX (fresh 13 15) 13 = fresh 13 15 ∧
    ((setRX exampleSensor 4)._pin_rx = 4 ∧ getRX (setRX exampleSensor 4) = 4 ∧
      (setRX exampleSensor 4)._dirty = true ∧
      (setRX exampleSensor 4)._pin_tx = exampleSensor._pin_tx ∧
      (setRX exampleSensor 4)._serial = exampleSensor._serial ∧
      (setRX exampleSensor 4)._soft = exampleSensor._soft ∧
      (setRX exampleSensor 4)._slot_values = exampleSensor._slot_values) ∧
    setTX (fresh 13 15) 15 = fresh 13 15 ∧
    ((setTX exampleSensor 4)._pin_tx = 4 ∧ getTX (setTX exampleSensor 4) = 4 ∧
      (setTX exampleSensor 4)._dirty = true ∧
      (setTX exampleSensor 4)._pin_rx = exampleSensor._pin_rx ∧
      (setTX exampleSensor 4)._serial = exampleSensor._serial ∧
      (setTX exampleSensor 4)._soft = exampleSensor._soft ∧
      (setTX exampleSensor 4)._slot_values = exampleSensor._slot_values) :=
  ⟨(setRX_setTX_frame (fresh 13 15) 13).1 rfl,
   (setRX_setTX_frame exampleSensor 4).2.1 (by decide),
   (setRX_setTX_frame (fresh 13 15) 15).2.2.1 rfl,
   (setRX_setTX_frame exampleSensor 4).2.2.2 (by decide)⟩

/-! ### C9 -/

/-- C9 (as amended): a new sensor, to which no hardware transport was attached,
is in software mode, and `begin` on it (also after any `setRX` and `setTX`)
constructs a software transport on the stored pins, opens it at 2400 baud,
sets its timeout to 50 and returns Ready and not Dirty. -/
theorem begin_fresh_ready (rx tx : Nat) (p q : Fin 256) :
    begin (fresh rx tx) = some
      ({ fresh rx tx with _serial := some (.SoftwareSerial rx tx false 64),
                          _ready := true, _dirty := false },
       [.new (.SoftwareSerial rx tx false 64), .enableIntTx (.SoftwareSerial rx tx false 64) false,
        .softBegin (.SoftwareSerial rx tx false 64) 2400,
        .setTimeout (.SoftwareSerial rx tx false 64) 50]) ∧
    ∃ s' ops, begin (setTX (setRX (fresh rx tx) p) q) = some (s', ops) ∧
      s'._ready = true ∧ s'._dirty = false ∧
      s'._serial = some (.SoftwareSerial p.val q.val false 64) := by
  constructor
  · rw [begin_dirty_soft (fresh rx tx) rfl rfl]; rfl
  · have h1 : (setTX (setRX (fresh rx tx) p) q)._dirty = true := by
      unfold setTX setRX; split <;> split <;> rfl
    have h2 : (setTX (setRX (fresh rx tx) p) q)._soft = true := by
      unfold setTX setRX; split <;> split <;> rfl
    have h3 : (setTX (setRX (fresh rx tx) p) q)._pin_rx = p.val := by
      unfold setTX setRX; split <;> split <;> simp_all [fresh]
    have h4 : (setTX (setRX (fresh rx tx) p) q)._pin_tx = q.val := by
      unfold setTX setRX; split <;> split <;> simp_all [fresh]
    refine ⟨_, _, begin_dirty_soft _ h1 h2, rfl, rfl, ?_⟩
    simp [h3, h4]

/-- C9 (counterexample): on a new sensor whose pins were set to 13 and 15 and
to which no transport was ever attached, `begin` returns with the Ready flag
set. -/
theorem begin_fresh_not_silent_failure :
    (setTX (setRX (fresh 0 0) 13) 15)._serial = none ∧
    (setTX (setRX (fresh 0 0) 13) 15)._ready = false ∧
    ∃ s' ops, begin (setTX (setRX (fresh 0 0) 13) 15) = some (s', ops) ∧ s'._ready = true :=
  ⟨rfl, rfl, _, _, begin_dirty_soft (setTX (setRX (fresh 0 0) 13) 15) rfl rfl, rfl⟩

/-! ### C10 -/

/-- C10 (failing input): with RX pin 100 and TX pin 100 stored by the setters,
`address` returns the five characters `100:1` for every index, not `100:100`:
the buffer of six bytes cuts the text. -/
theorem address_truncated (i : Nat) :
    address (setTX (setRX (fresh 0 0) 100) 100) i = "100:1".toList ∧
    address (setTX (setRX (fresh 0 0) 100) 100) i ≠ "100:100".toList := by
  have h0 : address (setTX (setRX (fresh 0 0) 100) 100) i
      = address (setTX (setRX (fresh 0 0) 100) 100) 0 := rfl
  rw [h0]
  constructor <;> decide

/-! ### C11 -/

/-- C11 (failing input): in software mode with RX pin 100 and TX pin 100 stored
by the setters, `slot` for index 11 returns its text cut after 66 characters,
`...SwSerial(100,10`, which is not the catalog name composed with the full
driver description. -/
theorem slot_truncated :
    slot (setTX (setRX (fresh 0 0) 100) 100) 11
      = "Type line-interactive or on-line @ UPS Voltronic @ SwSerial(100,10".toList ∧
    description (setTX (setRX (fresh 0 0) 100) 100)
      = "UPS Voltronic @ SwSerial(100,100)".toList ∧
    slot (setTX (setRX (fresh 0 0) 100) 100) 11
      ≠ (slot_spec 11).1.toList ++ " @ ".toList
          ++ description (setTX (setRX (fresh 0 0) 100) 100) := by
  refine ⟨by decide, by decide, by decide⟩

/-! ### C12 -/

/-- C12: for every slot index, `type` returns the measurement kind the catalog
fixes for it, and the result is the same in every state: no setter, no
`begin` and no pre-read, accepted or not, changes it. -/
theorem type_fixed (s : Sensor) (i : Fin 15) :
    type s i = catalogKind i ∧
    (∀ p : Fin 256, type (setRX s p) i = type s i ∧ type (setTX s p) i = type s i) ∧
    (∀ h : Option Nat, type (setSerial s h) i = type s i) ∧
    (∀ s' ops, begin s = some (s', ops) → type s' i = type s i) ∧
    (∀ reply s' ops, pre s reply = some (s', ops) → type s' i = type s i) ∧
    ∀ s' : Sensor, type s' i = type s i := by
  refine ⟨?_, fun _ => ⟨rfl, rfl⟩, fun _ => rfl, fun _ _ _ => rfl, fun _ _ _ _ => rfl,
    fun _ => rfl⟩
  revert i
  simp only [type]
  decide

/-! ### C13 -/

/-- C13: with the transport `p` attached, every pre-read, whatever the reply,
returns after exactly these calls on `p`, in this order: one `print` of the
three characters `Q`, `S`, carriage return, one `flush`, one
`readStringUntil` carriage return. -/
theorem pre_one_exchange (s : Sensor) (reply : Str) (p : Stream) (hp : s._serial = some p) :
    ∃ s', pre s reply = some (s',
      [TransportOp.print p ['Q', 'S', Char.ofNat 13], TransportOp.flush p,
       TransportOp.readStringUntil p (Char.ofNat 13)]) := by
  have h := pre_eq s p hp reply
  have e : "QS\r".toList = ['Q', 'S', Char.ofNat 13] := by decide
  rw [exchange, e] at h
  exact ⟨_, h⟩

/-- Witness for `pre_one_exchange`: a reply that fails validation. -/
theorem pre_one_exchange_witness :
    exampleSensor._serial = some (.HardwareSerial 0) ∧
    ∃ s', pre exampleSensor "NAK".toList = some (s',
      [TransportOp.print (.HardwareSerial 0) ['Q', 'S', Char.ofNat 13],
       TransportOp.flush (.HardwareSerial 0),
       TransportOp.readStringUntil (.HardwareSerial 0) (Char.ofNat 13)]) :=
  ⟨rfl, pre_one_exchange exampleSensor "NAK".toList (.HardwareSerial 0) rfl⟩

/-! ### C14 -/

/-- C14 (failing input): after `setSerial` with the hardware port `h`, `begin`
(also after any `setRX` and `setTX`) only opens `h` at 2400 baud and sets its
timeout to 50, constructs nothing and keeps the handle; but the destructor of
the sensor then deletes `h`. -/
theorem destructor_deletes_hardware_port (s : Sensor) (h : Nat) (p q : Fin 256) :
    ∃ s', begin (setTX (setRX (setSerial s (some h)) p) q) = some (s',
        [TransportOp.hardBegin (.HardwareSerial h) 2400,
         TransportOp.setTimeout (.HardwareSerial h) 50]) ∧
      s'._serial = some (.HardwareSerial h) ∧ s'._soft = false ∧
      destroy s' = [TransportOp.delete (.HardwareSerial h)] := by
  have h1 : (setTX (setRX (setSerial s (some h)) p) q)._dirty = true := by
    unfold setTX setRX; split <;> split <;> rfl
  have h2 : (setTX (setRX (setSerial s (some h)) p) q)._soft = false := by
    unfold setTX setRX; split <;> split <;> rfl
  have h3 : (setTX (setRX (setSerial s (some h)) p) q)._serial
      = some (.HardwareSerial h) := by
    unfold setTX setRX; split <;> split <;> rfl
  exact ⟨_, begin_dirty_hard _ _ h1 h2 h3, h3, h2, by simp [destroy, h3]⟩

/-! ### C15 -/

/-- C15: on a Dirty state in software mode with pins `(rx, tx)`, `begin`
deletes the previous transport if there is one, then constructs one
`SoftwareSerial` on `(rx, tx)`, disables its transmit interrupt, opens it at
2400 baud, sets its timeout to 50, and returns Ready and not Dirty.  After
that, `setRX` or `setTX` with another pin makes the next `begin` delete that
transport and build one on the new pins. -/
theorem begin_soft_rebuilds (s : Sensor) (hd : s._dirty = true) (hs : s._soft = true) :
    ∃ s', begin s = some (s',
        (match s._serial with
          | some old => [TransportOp.delete old]
          | none => []) ++
        [.new (.SoftwareSerial s._pin_rx s._pin_tx false 64),
         .enableIntTx (.SoftwareSerial s._pin_rx s._pin_tx false 64) false,
         .softBegin (.SoftwareSerial s._pin_rx s._pin_tx false 64) 2400,
         .setTimeout (.SoftwareSerial s._pin_rx s._pin_tx false 64) 50]) ∧
      s'._serial = some (.SoftwareSerial s._pin_rx s._pin_tx false 64) ∧
      s'._ready = true ∧ s'._dirty = false ∧
      (∀ p : Fin 256, p.val ≠ s._pin_rx →
        ∃ s'', begin (setRX s' p) = some (s'',
            [.delete (.SoftwareSerial s._pin_rx s._pin_tx false 64),
             .new (.SoftwareSerial p.val s._pin_tx false 64),
             .enableIntTx (.SoftwareSerial p.val s._pin_tx false 64) false,
             .softBegin (.SoftwareSerial p.val s._pin_tx false 64) 2400,
             .setTimeout (.SoftwareSerial p.val s._pin_tx false 64) 50]) ∧
          s''._serial = some (.SoftwareSerial p.val s._pin_tx false 64) ∧
          s''._ready = true ∧ s''._dirty = false) ∧
      (∀ q : Fin 256, q.val ≠ s._pin_tx →
        ∃ s'', begin (setTX s' q) = some (s'',
            [.delete (.SoftwareSerial s._pin_rx s._pin_tx false 64),
             .new (.SoftwareSerial s._pin_rx q.val false 64),
             .enableIntTx (.SoftwareSerial s._pin_rx q.val false 64) false,
             .softBegin (.SoftwareSerial s._pin_rx q.val false 64) 2400,
             .setTimeout (.SoftwareSerial s._pin_rx q.val false 64) 50]) ∧
          s''._serial = some (.SoftwareSerial s._pin_rx q.val false 64) ∧
          s''._ready = true ∧ s''._dirty = false) := by
  refine ⟨_, begin_dirty_soft s hd hs, rfl, rfl, rfl, fun p hp => ?_, fun q hq => ?_⟩
  · have hne : ¬ s._pin_rx = p.val := fun e => hp e.symm
    have e : setRX { s with _serial := some (.SoftwareSerial s._pin_rx s._pin_tx false 64),
                            _ready := true, _dirty := false } p
        = { s with _serial := some (.SoftwareSerial s._pin_rx s._pin_tx false 64),
                   _ready := true, _dirty := true, _pin_rx := p.val } := by
      simp [setRX, hne]
    rw [e]
    exact ⟨_, begin_dirty_soft _ rfl hs, rfl, rfl, rfl⟩
  · have hne : ¬ s._pin_tx = q.val := fun e => hq e.symm
    have e : setTX { s with _serial := some (.SoftwareSerial s._pin_rx s._pin_tx false 64),
                            _ready := true, _dirty := false } q
        = { s with _serial := some (.SoftwareSerial s._pin_rx s._pin_tx false 64),
                   _ready := true, _dirty := true, _pin_tx := q.val } := by
      simp [setTX, hne]
    rw [e]
    exact ⟨_, begin_dirty_soft _ rfl hs, rfl, rfl, rfl⟩

/-- Witness for `begin_soft_rebuilds`: a new sensor on pins 13 and 15. -/
theorem begin_soft_rebuilds_witness :
    (fresh 13 15)._dirty = true ∧ (fresh 13 15)._soft = true ∧
    ∃ s', begin (fresh 13 15) = some (s',
        [.new (.SoftwareSerial 13 15 false 64),
         .enableIntTx (.SoftwareSerial 13 15 false 64) false,
         .softBegin (.SoftwareSerial 13 15 false 64) 2400,
         .setTimeout (.SoftwareSerial 13 15 false 64) 50]) ∧
      s'._serial = some (.SoftwareSerial 13 15 false 64) ∧
      s'._ready = true ∧ s'._dirty = false ∧
      (∀ p : Fin 256, p.val ≠ 13 →
        ∃ s'', begin (setRX s' p) = some (s'',
            [.delete (.SoftwareSerial 13 15 false 64),
             .new (.SoftwareSerial p.val 15 false 64),
             .enableIntTx (.SoftwareSerial p.val 15 false 64) false,
             .softBegin (.SoftwareSerial p.val 15 false 64) 2400,
             .setTimeout (.SoftwareSerial p.val 15 false 64) 50]) ∧
          s''._serial = some (.SoftwareSerial p.val 15 false 64) ∧
          s''._ready = true ∧ s''._dirty = false) ∧
      (∀ q : Fin 256, q.val ≠ 15 →
        ∃ s'', begin (setTX s' q) = some (s'',
            [.delete (.SoftwareSerial 13 15 false 64),
             .new (.SoftwareSerial 13 q.val false 64),
             .enableIntTx (.SoftwareSerial 13 q.val false 64) false,
             .softBegin (.SoftwareSerial 13 q.val false 64) 2400,
             .setTimeout (.SoftwareSerial 13 q.val false 64) 50]) ∧
          s''._serial = some (.SoftwareSerial 13 q.val false 64) ∧
          s''._ready = true ∧ s''._dirty = false) :=
  ⟨rfl, rfl, begin_soft_rebuilds (fresh 13 15) rfl rfl⟩

/-! ### C16 -/

/-- C16 (failing input): on a sensor in hardware mode with port 0 attached and
not Dirty, `setSerial` with the same port 0 marks the configuration Dirty, so
the state changes and the next `begin` opens the port again. -/
theorem setSerial_same_port_marks_dirty :
    exampleSensor._soft = false ∧ exampleSensor._serial = some (.HardwareSerial 0) ∧
    exampleSensor._dirty = false ∧
    (setSerial exampleSensor (some 0))._dirty = true ∧
    setSerial exampleSensor (some 0) ≠ exampleSensor ∧
    begin (setSerial exampleSensor (some 0)) = some (exampleSensor,
      [TransportOp.hardBegin (.HardwareSerial 0) 2400,
       TransportOp.setTimeout (.HardwareSerial 0) 50]) := by
  refine ⟨rfl, rfl, rfl, rfl, ?_, rfl⟩
  intro h
  have := congrArg Sensor._dirty h
  exact absurd this (by decide)

/-! ### C17 -/

/-- C17: with a transport attached, two replies that both pass validation and
agree on every index of the documented ranges 1..5, 7..11, 13..17, 19..21,
23..26, 28..31, 34..36 and 38..end leave the same slot values and the same
error state: the characters at the indices 6, 12, 18, 22, 27, 32, 33 and 37
have no influence. -/
theorem pre_ignores_gap_characters (s : Sensor) (r1 r2 : Str) (h : s._serial ≠ none)
    (hlen1 : 46 ≤ r1.length) (hfirst1 : r1.head? = some '(')
    (hlen2 : 46 ≤ r2.length) (hfirst2 : r2.head? = some '(')
    (hagree : ∀ k : Nat, inDocumentedRange k = true → r1[k]? = r2[k]?) :
    ∃ s1 ops1 s2 ops2, pre s r1 = some (s1, ops1) ∧ pre s r2 = some (s2, ops2) ∧
      (∀ i : Fin 15, s1._slot_values i = s2._slot_values i) ∧ s1._error = s2._error := by
  obtain ⟨p, hp, hpre1⟩ := pre_isSome s r1 h
  have hpre2 := pre_eq s p hp r2
  have hv1 : validReply r1 := ⟨hlen1, hfirst1⟩
  have hv2 : validReply r2 := ⟨hlen2, hfirst2⟩
  simp only [hv1, if_true] at hpre1
  simp only [hv2, if_true] at hpre2
  refine ⟨_, _, _, _, hpre1, hpre2, fun i => ?_, ?_⟩
  · rw [parse_slot_values, parse_slot_values, rangeChars_congr r1 r2 hagree i]
  · rw [(parse_frame _ r1).2.2.2.2.1, (parse_frame _ r2).2.2.2.2.1]

/-- Witness for `pre_ignores_gap_characters`: a reply with blanks and the same
reply with letters at the eight indices between the ranges. -/
theorem pre_ignores_gap_characters_witness :
    exampleSensor._serial ≠ none ∧
    46 ≤ alignedReply.length ∧ alignedReply.head? = some '(' ∧
    46 ≤ alignedReplyOtherGaps.length ∧ alignedReplyOtherGaps.head? = some '(' ∧
    (∀ k : Nat, inDocumentedRange k = true → alignedReply[k]? = alignedReplyOtherGaps[k]?) ∧
    ∃ s1 ops1 s2 ops2, pre exampleSensor alignedReply = some (s1, ops1) ∧
      pre exampleSensor alignedReplyOtherGaps = some (s2, ops2) ∧
      (∀ i : Fin 15, s1._slot_values i = s2._slot_values i) ∧ s1._error = s2._error :=
  have hagree : ∀ k : Nat, inDocumentedRange k = true →
      alignedReply[k]? = alignedReplyOtherGaps[k]? := by
    intro k hk
    by_cases h46 : k < 46
    · interval_cases k <;> first | rfl | exact absurd hk (by decide)
    · rw [List.getElem?_eq_none (by simp [alignedReply]; omega),
        List.getElem?_eq_none (by simp [alignedReplyOtherGaps]; omega)]
  ⟨by decide, by decide, by decide, by decide, by decide, hagree,
    pre_ignores_gap_characters exampleSensor alignedReply alignedReplyOtherGaps (by decide)
      (by decide) (by decide) (by decide) (by decide) hagree⟩

/-! ### C18 -/

/-- C18: from a new sensor, after every sequence of calls (setters, `begin`,
accessors, and pre-reads whose replies all fail validation) that runs to its
end, `value` returns 0 for every slot; and in any state `setRX`, `setTX`,
`setSerial`, `begin`, `description`, `slot`, `address`, `type` and `value`
leave the slot values as they are. -/
theorem slots_change_only_by_accepted_pre (rx tx : Nat) (calls : List Call) (s' : Sensor)
    (hfail : ∀ reply, Call.pre reply ∈ calls →
      ¬ (46 ≤ reply.length ∧ reply.head? = some '('))
    (hrun : run (fresh rx tx) calls = some s') :
    (∀ i : Fin 15, value s' i = .finite 0) ∧
    ∀ s : Sensor,
      (∀ p : Fin 256, (setRX s p)._slot_values = s._slot_values ∧
        (setTX s p)._slot_values = s._slot_values) ∧
      (∀ h : Option Nat, (setSerial s h)._slot_values = s._slot_values) ∧
      (∀ t ops, begin s = some (t, ops) → t._slot_values = s._slot_values) ∧
      step s .description = some s ∧ (∀ i, step s (.slot i) = some s) ∧
      (∀ i, step s (.address i) = some s) ∧ (∀ i, step s (.type i) = some s) ∧
      (∀ i, step s (.value i) = some s) := by
  refine ⟨fun i => ?_, fun s => ⟨fun p => ⟨?_, ?_⟩, fun _ => rfl,
    fun t ops hb => begin_slot_values s t ops hb, rfl, fun _ => rfl, fun _ => rfl,
    fun _ => rfl, fun _ => rfl⟩⟩
  · rw [value, run_slot_values calls (fresh rx tx) s' hfail hrun]
    rfl
  · exact step_slot_values s _ (.setRX p) (fun _ hc => by cases hc) rfl
  · exact step_slot_values s _ (.setTX p) (fun _ hc => by cases hc) rfl

/-- Witness for `slots_change_only_by_accepted_pre`: the calls `failingCalls`
on a new sensor, which end in the state `failedSensor`. -/
theorem slots_change_only_by_accepted_pre_witness :
    (∀ reply, Call.pre reply ∈ failingCalls →
      ¬ (46 ≤ reply.length ∧ reply.head? = some '(')) ∧
    run (fresh 0 0) failingCalls = some failedSensor ∧
    (∀ i : Fin 15, value failedSensor i = .finite 0) :=
  have hfail : ∀ reply, Call.pre reply ∈ failingCalls →
      ¬ (46 ≤ reply.length ∧ reply.head? = some '(') := by
    intro reply hm
    simp only [failingCalls, List.mem_cons, List.mem_singleton, Call.pre.injEq,
      List.not_mem_nil, or_false, false_or, reduceCtorEq] at hm
    rcases hm with rfl | rfl | rfl <;> decide
  ⟨hfail, rfl,
    (slots_change_only_by_accepted_pre 0 0 failingCalls failedSensor hfail rfl).1⟩

end UPSVoltronicSensor
